import Mathlib

/-!
Verification of the Agent-Ready Score calculator (the multi-dimensional
OpenAPI scoring engine).  The definitions below are a shallow embedding of
the TypeScript module: numbers are modelled with exact arithmetic
(`ℤ`/`ℚ`, and `ℝ` for the one `Math.log10`-based sub-factor), JavaScript
`Math.round` as `⌊x + 1/2⌋`, optional fields as `Option`, records as
association lists in insertion order, and JS truthiness tests on optional
strings via `strTruthy`.  Presentation-only output fields
(`description`, `improvementTips`, `appearCanHelp`, `summary`,
`appearCTA`, `METHODOLOGY`) are omitted from the embedded result
structures: no scoring logic reads them.
-/

namespace AgentReady

/-- JS `Math.round x` on exact rationals: round half toward positive
infinity, which is exactly `⌊x + 1/2⌋`. -/
def qRound (q : ℚ) : ℤ := ⌊q + 1/2⌋

/-- JS `Math.round` on reals (used only where `Math.log10` makes the
operand irrational). -/
noncomputable def jsRoundR (x : ℝ) : ℤ := ⌊x + 1/2⌋

/-- `pat` is a prefix of `l` (structural recursion, so that concrete
instances evaluate inside the kernel). -/
def isPrefixOfList : List Char → List Char → Bool
  | [], _ => true
  | _ :: _, [] => false
  | a :: as, b :: bs => a == b && isPrefixOfList as bs

/-- `pat` occurs as a contiguous run of `l`. -/
def containsList (pat : List Char) : List Char → Bool
  | [] => pat.isEmpty
  | c :: t => isPrefixOfList pat (c :: t) || containsList pat t

/-- JS `s.includes pat`. -/
def strContains (s pat : String) : Bool := containsList pat.data s.data

/-- JS `s.startsWith p`. -/
def jsStartsWith (s p : String) : Bool := isPrefixOfList p.data s.data

/-- JS `s.endsWith p`. -/
def jsEndsWith (s p : String) : Bool := isPrefixOfList p.data.reverse s.data.reverse

/-- ASCII lowercasing of one character (every string the engine
lowercases before matching is compared against ASCII word lists). -/
def charToLower (c : Char) : Char :=
  if c.isUpper then Char.ofNat (c.toNat + 32) else c

/-- JS `s.toLowerCase()` on ASCII strings. -/
def strToLower (s : String) : String := ⟨s.data.map charToLower⟩

/-- JS truthiness of an optional string field (`undefined` and `""` are
falsy). -/
def strTruthy : Option String → Bool
  | none => false
  | some s => !(s == "")

/-- `o && o.length >= k` on an optional string field. -/
def optLenGE (o : Option String) (k : ℕ) : Bool :=
  match o with
  | none => false
  | some s => k ≤ s.length

/-- Leading decimal value of a digit list. -/
def digitsToNat (ds : List Char) : ℕ :=
  ds.foldl (fun acc c => acc * 10 + (c.toNat - ('0').toNat)) 0

/-- JS `parseInt` (decimal): skip leading whitespace, optional sign,
then the maximal run of digits; `none` models `NaN`. -/
def jsParseInt (s : String) : Option ℤ :=
  let cs := s.data.dropWhile fun c => c == ' ' || c == '\t' || c == '\n' || c == '\r'
  let signed : ℤ × List Char :=
    match cs with
    | '-' :: t => (-1, t)
    | '+' :: t => (1, t)
    | t => (1, t)
  let ds := signed.2.takeWhile Char.isDigit
  if ds.isEmpty then none
  else some (signed.1 * (digitsToNat ds : ℤ))

/-- `parseInt code >= 400` (`NaN >= 400` is false). -/
def codeGE400 (code : String) : Bool :=
  match jsParseInt code with
  | some n => 400 ≤ n
  | none => false

/-- Word characters of the regex `\w` class. -/
def isWordChar (c : Char) : Bool := c.isAlphanum || c == '_'

/-- Maximal `\w`-runs of a character list (used to decide the
word-boundary-delimited regex tests). -/
def wordRunsAux : List Char → List Char → List (List Char)
  | [], acc => if acc.isEmpty then [] else [acc.reverse]
  | c :: cs, acc =>
    if isWordChar c then wordRunsAux cs (c :: acc)
    else if acc.isEmpty then wordRunsAux cs [] else acc.reverse :: wordRunsAux cs []

/-- Maximal word runs of a string, lowercased (the regexes carry the
`i` flag). -/
def wordRuns (s : String) : List String :=
  (wordRunsAux (strToLower s).data []).map List.asString

/-- The alternatives of `ACTION_VERBS_PATTERN`, expanded: each
`xyz s?` branch matches the run `xyz` or `xyz ++ "s"` exactly (so e.g.
`fetches?` matches "fetche" and "fetches" but not "fetch"). -/
def actionVerbWords : List String :=
  ["create", "creates", "retrieve", "retrieves", "update", "updates",
   "delete", "deletes", "list", "lists", "get", "gets",
   "fetche", "fetches", "return", "returns", "allow", "allows",
   "enable", "enables", "provide", "provides", "send", "sends",
   "receive", "receives", "validate", "validates", "processe", "processes",
   "generate", "generates", "initiate", "initiates", "cancel", "cancels",
   "submit", "submits"]

/-- The alternatives of `BUSINESS_CONTEXT_PATTERN` (no optional `s`). -/
def businessContextWords : List String :=
  ["user", "customer", "order", "payment", "account", "product", "invoice",
   "subscription", "transaction", "request", "response", "data", "resource"]

/-- `/\b(w1|w2|...)\b/i.test s`: some maximal word run of `s` equals one
of the alternatives (all alternatives are full `\w`-runs). -/
def testWordList (words : List String) (s : String) : Bool :=
  (wordRuns s).any fun r => words.contains r

/-- `ACTION_VERBS_PATTERN.test s`. -/
def actionVerbsTest (s : String) : Bool := testWordList actionVerbWords s

/-- `BUSINESS_CONTEXT_PATTERN.test s`. -/
def businessContextTest (s : String) : Bool := testWordList businessContextWords s

/-- The verb alternatives of `OPERATION_ID_PATTERN`. -/
def opIdVerbs : List String :=
  ["get", "list", "create", "update", "delete", "fetch", "find", "search",
   "add", "remove", "set", "upload", "download", "send", "receive",
   "validate", "process", "generate", "initiate", "cancel", "submit"]

/-- `OPERATION_ID_PATTERN.test s`: the string starts with one of the
verbs immediately followed by an uppercase letter (anchored at the
start only, case sensitive). -/
def opIdWellFormed (s : String) : Bool :=
  opIdVerbs.any fun v =>
    jsStartsWith s v &&
      (match s.data.drop v.length with
       | c :: _ => c.isUpper
       | [] => false)

/-- `OPENAPI_VERSION_PATTERN` `/^3\.[0-2]\.\d+$/`. -/
def openApiVersionOk (s : String) : Bool :=
  match s.data with
  | '3' :: '.' :: c :: '.' :: rest =>
    (c == '0' || c == '1' || c == '2') && !rest.isEmpty && rest.all Char.isDigit
  | _ => false

-- ===========================================================================
-- Data model (the fields of the source interfaces that the engine reads)
-- ===========================================================================

/-- `SchemaObject`: only the fields the analyzers read.  `exampleVal` (the
source's `example` field, renamed: `example` is reserved in Lean) and
`examples` model JS truthiness of the unknown-typed fields; `properties`
keeps the property names (`Object.keys`) — nested schema values are
never read by the engine. -/
structure SchemaObject where
  description : Option String := none
  exampleVal : Bool := false
  examples : Bool := false
  properties : List String := []
deriving DecidableEq

structure MediaTypeObject where
  schema : Option SchemaObject := none
  exampleVal : Bool := false
  examples : Bool := false
deriving DecidableEq

structure ResponseObject where
  content : Option (List (String × MediaTypeObject)) := none
deriving DecidableEq

structure RequestBodyObject where
  content : Option (List (String × MediaTypeObject)) := none
deriving DecidableEq

structure ParameterObject where
  name : String
  description : Option String := none
deriving DecidableEq

/-- `SecurityRequirement` content is never inspected, only presence and
array length. -/
abbrev SecurityRequirement : Type := Unit

structure OperationObject where
  summary : Option String := none
  description : Option String := none
  operationId : Option String := none
  tags : Option (List String) := none
  parameters : Option (List ParameterObject) := none
  requestBody : Option RequestBodyObject := none
  responses : Option (List (String × ResponseObject)) := none
  security : Option (List SecurityRequirement) := none
  xIdempotent : Bool := false
  xIdempotencyKey : Bool := false
deriving DecidableEq

structure PathItem where
  get : Option OperationObject := none
  put : Option OperationObject := none
  post : Option OperationObject := none
  delete : Option OperationObject := none
  options : Option OperationObject := none
  head : Option OperationObject := none
  patch : Option OperationObject := none
  trace : Option OperationObject := none
  parameters : Option (List ParameterObject) := none
deriving DecidableEq

structure SecurityScheme where
  type : String
  scheme : Option String := none
deriving DecidableEq

structure ServerObject where
  url : String
  description : Option String := none
deriving DecidableEq

structure TagObject where
  name : String
  description : Option String := none
deriving DecidableEq

/-- `info`: `contact` and `license` model presence (truthiness) of the
sub-objects, whose contents the engine never reads. -/
structure InfoObject where
  title : Option String := none
  description : Option String := none
  contact : Bool := false
  license : Bool := false
deriving DecidableEq

structure ExternalDocsObject where
  url : Option String := none
deriving DecidableEq

structure ComponentsObject where
  schemas : Option (List (String × SchemaObject)) := none
  securitySchemes : Option (List (String × SecurityScheme)) := none
deriving DecidableEq

structure OpenApiSpec where
  openapi : Option String := none
  info : Option InfoObject := none
  externalDocs : Option ExternalDocsObject := none
  servers : Option (List ServerObject) := none
  tags : Option (List TagObject) := none
  paths : Option (List (String × PathItem)) := none
  components : Option ComponentsObject := none
  security : Option (List SecurityRequirement) := none
deriving DecidableEq

/-- `ValidationResult` (from `lib/types`): the fields the Foundational
Compliance analyzer reads.  `path` elements are stringified before the
substring test in the source (`p.toString()`), so they are kept as
strings here. -/
structure ValidationResult where
  source : String := ""
  code : String := ""
  message : String := ""
  severity : String := "info"
  path : Option (List String) := none
  category : Option String := none
deriving DecidableEq

-- ===========================================================================
-- Output model
-- ===========================================================================

inductive Grade where
  | A | B | C | D | F
deriving DecidableEq

inductive SignalType where
  | positive | negative | neutral
deriving DecidableEq

structure Signal where
  type : SignalType
  message : String
  count : Option ℕ := none
deriving DecidableEq

inductive Priority where
  | critical | high | medium | low
deriving DecidableEq

structure Recommendation where
  priority : Priority
  dimension : String
  title : String
  description : String
  impact : String
  automatable : Bool
deriving DecidableEq

/-- `DimensionScore`.  `details` is the sub-factor map in insertion
order; every recorded sub-factor is an integer (a `Math.round` result
or an integer-valued penalty expression), except Foundational
Compliance's real-valued `structuralIntegrity`, which is kept out of
the map and exposed through `structuralIntegrity` below.  The
presentation-only fields are omitted. -/
structure DimensionScore where
  score : ℤ
  grade : Grade
  label : String
  signals : List Signal
  details : List (String × ℤ)
deriving DecidableEq

structure DocStats where
  operations : ℕ
  schemas : ℕ
  parameters : ℕ
  tags : ℕ
  securitySchemes : ℕ
deriving DecidableEq

structure Dimensions where
  foundationalCompliance : DimensionScore
  semanticRichness : DimensionScore
  agentUsability : DimensionScore
  aiDiscoverability : DimensionScore
  security : DimensionScore
  errorRecoverability : DimensionScore
deriving DecidableEq

structure AgentReadinessScore where
  overallScore : ℤ
  grade : Grade
  readinessLevel : String
  dimensions : Dimensions
  stats : DocStats
  recommendations : List Recommendation
deriving DecidableEq

-- ===========================================================================
-- Scoring constants
-- ===========================================================================

structure Weights where
  foundationalCompliance : ℚ
  semanticRichness : ℚ
  agentUsability : ℚ
  aiDiscoverability : ℚ
  security : ℚ
  errorRecoverability : ℚ

def WEIGHTS : Weights :=
  { foundationalCompliance := 0.25
    semanticRichness := 0.20
    agentUsability := 0.20
    aiDiscoverability := 0.15
    security := 0.10
    errorRecoverability := 0.10 }

def PAGINATION_PARAMS : List String :=
  ["page", "limit", "offset", "cursor", "per_page", "page_size", "skip",
   "take", "after", "before"]

def IDEMPOTENT_METHODS : List String := ["get", "put", "delete", "head", "options"]

def errorCodeFields : List String := ["code", "error_code", "errorcode", "status", "type"]

def retryFields : List String := ["retry_after", "retryafter", "retry_after_seconds", "retryable"]

def scoreToGrade (score : ℤ) : Grade :=
  if score ≥ 90 then .A
  else if score ≥ 80 then .B
  else if score ≥ 70 then .C
  else if score ≥ 60 then .D
  else .F

def scoreToReadinessLevel (score : ℤ) : String :=
  if score ≥ 80 then "Agent Ready"
  else if score ≥ 60 then "Partially Ready"
  else if score ≥ 40 then "Needs Work"
  else "Not Ready"

-- ===========================================================================
-- Walking the document
-- ===========================================================================

/-- The eight HTTP method slots of a path item, in `HTTP_METHODS`
order. -/
def methodSlots (p : PathItem) : List (String × Option OperationObject) :=
  [("get", p.get), ("put", p.put), ("post", p.post), ("delete", p.delete),
   ("options", p.options), ("head", p.head), ("patch", p.patch), ("trace", p.trace)]

def httpMethodNames : List String :=
  ["get", "put", "post", "delete", "options", "head", "patch", "trace"]

/-- The operations present on one path item, tagged with their method
name (the `for (const method of HTTP_METHODS) if (operation)` loop). -/
def methodOps (p : PathItem) : List (String × OperationObject) :=
  (methodSlots p).filterMap fun x => x.2.map fun op => (x.1, op)

/-- All operations of the document as `(pathKey, method, operation)`
triples, in the iteration order of the source's nested loops. -/
def specOps (spec : OpenApiSpec) : List (String × String × OperationObject) :=
  (spec.paths.getD []).flatMap fun p => (methodOps p.2).map fun x => (p.1, x.1, x.2)

def componentSchemas (spec : OpenApiSpec) : List (String × SchemaObject) :=
  ((spec.components.bind fun c => c.schemas).getD [])

def componentSecuritySchemes (spec : OpenApiSpec) : List (String × SecurityScheme) :=
  ((spec.components.bind fun c => c.securitySchemes).getD [])

/-- `gatherStats`: the source's nested path/method loop counts exactly
the present operations (`specOps`) and sums operation-level plus
path-level parameter array lengths. -/
def gatherStats (spec : OpenApiSpec) : DocStats :=
  { operations := (specOps spec).length
    schemas := (componentSchemas spec).length
    parameters :=
      ((specOps spec).map fun t => (t.2.2.parameters.getD []).length).sum +
        ((spec.paths.getD []).map fun p => (p.2.parameters.getD []).length).sum
    tags := (spec.tags.getD []).length
    securitySchemes := (componentSecuritySchemes spec).length }

/-- `count > 0 ? Math.round((part / count) * 100) : 0` — the percentage
shape shared by most sub-factors. -/
def pct (part count : ℕ) : ℤ :=
  if 0 < count then qRound ((part : ℚ) / (count : ℚ) * 100) else 0

def pluralS (n : ℕ) : String := if n > 1 then "s" else ""

-- ===========================================================================
-- Foundational Compliance
-- ===========================================================================

/-- `r.severity === 'error' && !r.code.includes('SUCCESS')`. -/
def fcErrorPred (r : ValidationResult) : Bool :=
  r.severity == "error" && !(strContains r.code "SUCCESS")

def fcWarningPred (r : ValidationResult) : Bool := r.severity == "warning"

def fcRefPred (r : ValidationResult) : Bool :=
  strContains (strToLower r.message) "ref" || strContains (strToLower r.message) "reference" ||
    strContains (strToLower r.code) "ref"

def fcSchemaPred (r : ValidationResult) : Bool :=
  r.category == some "schema" || strContains (strToLower r.message) "schema" ||
    (r.path.getD []).any fun p => strContains (strToLower p) "schema"

def fcErrors (results : List ValidationResult) : ℕ := (results.filter fcErrorPred).length

def fcWarnings (results : List ValidationResult) : ℕ := (results.filter fcWarningPred).length

def fcRefIssues (results : List ValidationResult) : ℕ := (results.filter fcRefPred).length

def fcSchemaIssues (results : List ValidationResult) : ℕ := (results.filter fcSchemaPred).length

/-- `errors.length === 0 ? 100 : Math.max(0, 100 - errors.length * 12)`
as a function of the error count. -/
def svOf (e : ℕ) : ℤ := if e = 0 then 100 else max 0 (100 - 12 * (e : ℤ))

/-- `Math.max(0, 100 - errors.length * 8 - warnings.length * 2)`. -/
def lintOf (e w : ℕ) : ℤ := max 0 (100 - 8 * (e : ℤ) - 2 * (w : ℤ))

/-- `refIssues.length === 0 ? 100 : Math.max(0, 100 - refIssues.length * 15)`. -/
def rcOf (refc : ℕ) : ℤ := if refc = 0 then 100 else max 0 (100 - 15 * (refc : ℤ))

/-- `schemaIssues.length === 0 ? 100 :
Math.max(0, 100 - Math.min(50, Math.log10(schemaIssues.length + 1) * 25))`. -/
noncomputable def siOf (n : ℕ) : ℝ :=
  if n = 0 then 100 else max 0 (100 - min 50 (Real.logb 10 ((n : ℝ) + 1) * 25))

def specificationValidity (results : List ValidationResult) : ℤ := svOf (fcErrors results)

def lintResults (results : List ValidationResult) : ℤ :=
  lintOf (fcErrors results) (fcWarnings results)

def resolutionCompleteness (results : List ValidationResult) : ℤ := rcOf (fcRefIssues results)

noncomputable def structuralIntegrity (results : List ValidationResult) : ℝ :=
  siOf (fcSchemaIssues results)

/-- The Foundational Compliance composite
`round(validity*0.35 + lint*0.25 + refs*0.25 + structure*0.15)`. -/
noncomputable def fcScore (results : List ValidationResult) : ℤ :=
  jsRoundR ((specificationValidity results : ℝ) * 0.35 + (lintResults results : ℝ) * 0.25 +
    (resolutionCompleteness results : ℝ) * 0.25 + structuralIntegrity results * 0.15)

def fcSignals (results : List ValidationResult) (spec : OpenApiSpec) : List Signal :=
  let errors := fcErrors results
  let refIssues := fcRefIssues results
  let schemaIssues := fcSchemaIssues results
  let hasValidVersion := strTruthy spec.openapi && openApiVersionOk (spec.openapi.getD "")
  (if hasValidVersion then
    [⟨.positive, "OpenAPI " ++ spec.openapi.getD "" ++ " specification", none⟩]
   else [⟨.negative, "Missing or invalid OpenAPI version", none⟩]) ++
  (if errors > 0 then
    [⟨.negative, toString errors ++ " validation error" ++ pluralS errors, some errors⟩]
   else [⟨.positive, "No validation errors", none⟩]) ++
  (if refIssues > 0 then
    [⟨.negative, toString refIssues ++ " unresolved reference" ++ pluralS refIssues, some refIssues⟩]
   else []) ++
  (if schemaIssues > 0 then
    [⟨.negative, toString schemaIssues ++ " schema issue" ++ pluralS schemaIssues, some schemaIssues⟩]
   else [])

/-- `analyzeFoundationalCompliance` — `structuralIntegrity`, being
real-valued (`Math.log10`), is exposed through the standalone
`structuralIntegrity` definition rather than the integer `details`
map. -/
noncomputable def analyzeFoundationalCompliance (results : List ValidationResult)
    (spec : OpenApiSpec) (_stats : DocStats) : DimensionScore :=
  { score := fcScore results
    grade := scoreToGrade (fcScore results)
    label := "Foundational Compliance"
    signals := fcSignals results spec
    details :=
      [("specificationValidity", specificationValidity results),
       ("lintResults", lintResults results),
       ("resolutionCompleteness", resolutionCompleteness results)] }

-- ===========================================================================
-- Semantic Richness
-- ===========================================================================

/-- `operation.description && operation.description.length >= 20`. -/
def srDescOk (op : OperationObject) : Bool := optLenGE op.description 20

/-- `operation.summary && operation.summary.length >= 10`. -/
def srSummaryOk (op : OperationObject) : Bool := optLenGE op.summary 10

def srOpsWithDescription (spec : OpenApiSpec) : ℕ :=
  (specOps spec).countP fun t => srDescOk t.2.2

def srOpsWithSummary (spec : OpenApiSpec) : ℕ :=
  (specOps spec).countP fun t => srSummaryOk t.2.2

/-- Within the `description >= 20` branch, one point for the action-verb
pattern and one for the business-context pattern. -/
def srNaturalLanguageQuality (spec : OpenApiSpec) : ℕ :=
  ((specOps spec).map fun t =>
    if srDescOk t.2.2 then
      (if actionVerbsTest (t.2.2.description.getD "") then 1 else 0) +
        (if businessContextTest (t.2.2.description.getD "") then 1 else 0)
    else 0).sum

def srTotalParameters (spec : OpenApiSpec) : ℕ :=
  ((specOps spec).map fun t => (t.2.2.parameters.getD []).length).sum

def srParamsWithDescription (spec : OpenApiSpec) : ℕ :=
  ((specOps spec).map fun t =>
    (t.2.2.parameters.getD []).countP fun p => optLenGE p.description 10).sum

def srSchemasWithDescription (spec : OpenApiSpec) : ℕ :=
  (componentSchemas spec).countP fun s => optLenGE s.2.description 15

def srDescriptionCoverage (spec : OpenApiSpec) (stats : DocStats) : ℤ :=
  pct (srOpsWithDescription spec) stats.operations

def srSummaryCoverage (spec : OpenApiSpec) (stats : DocStats) : ℤ :=
  pct (srOpsWithSummary spec) stats.operations

def srParameterDescriptions (spec : OpenApiSpec) : ℤ :=
  pct (srParamsWithDescription spec) (srTotalParameters spec)

def srSchemaDescriptions (spec : OpenApiSpec) (stats : DocStats) : ℤ :=
  pct (srSchemasWithDescription spec) stats.schemas

/-- `stats.operations > 0 ?
Math.round((naturalLanguageQuality / (stats.operations * 2)) * 100) : 0`. -/
def srNlQuality (spec : OpenApiSpec) (stats : DocStats) : ℤ :=
  if 0 < stats.operations then
    qRound ((srNaturalLanguageQuality spec : ℚ) / ((stats.operations : ℚ) * 2) * 100)
  else 0

def srScore (spec : OpenApiSpec) (stats : DocStats) : ℤ :=
  qRound ((srDescriptionCoverage spec stats : ℚ) * 0.30 +
    (srSummaryCoverage spec stats : ℚ) * 0.15 +
    (srParameterDescriptions spec : ℚ) * 0.20 +
    (srSchemaDescriptions spec stats : ℚ) * 0.15 +
    (srNlQuality spec stats : ℚ) * 0.20)

def srSignals (spec : OpenApiSpec) (stats : DocStats) : List Signal :=
  let descriptionCoverage := srDescriptionCoverage spec stats
  let parameterDescriptions := srParameterDescriptions spec
  let nlQuality := srNlQuality spec stats
  let totalParameters := srTotalParameters spec
  (if descriptionCoverage ≥ 80 then
    [⟨.positive, toString descriptionCoverage ++ "% operations have descriptions", none⟩]
   else
    [⟨.negative, toString (100 - descriptionCoverage) ++ "% operations missing descriptions",
      some (stats.operations - srOpsWithDescription spec)⟩]) ++
  (if parameterDescriptions ≥ 70 then
    [⟨.positive, toString parameterDescriptions ++ "% parameters documented", none⟩]
   else if totalParameters > 0 then
    [⟨.negative, toString (100 - parameterDescriptions) ++ "% parameters undocumented",
      some (totalParameters - srParamsWithDescription spec)⟩]
   else []) ++
  (if nlQuality < 50 ∧ stats.operations > 0 then
    [⟨.negative, "Descriptions lack natural language context for AI reasoning", none⟩]
   else [])

def analyzeSemanticRichness (spec : OpenApiSpec) (stats : DocStats) : DimensionScore :=
  { score := srScore spec stats
    grade := scoreToGrade (srScore spec stats)
    label := "Semantic Richness"
    signals := srSignals spec stats
    details :=
      [("descriptionCoverage", srDescriptionCoverage spec stats),
       ("summaryCoverage", srSummaryCoverage spec stats),
       ("parameterDescriptions", srParameterDescriptions spec),
       ("schemaDescriptions", srSchemaDescriptions spec stats),
       ("naturalLanguageQuality", srNlQuality spec stats)] }

-- ===========================================================================
-- Agent Usability
-- ===========================================================================

/-- `if (operation.operationId)` — JS truthiness. -/
def auHasId (op : OperationObject) : Bool := strTruthy op.operationId

def auWellNamed (op : OperationObject) : Bool :=
  auHasId op && opIdWellFormed (op.operationId.getD "")

def auIdempotent (method : String) (op : OperationObject) : Bool :=
  IDEMPOTENT_METHODS.contains method || op.xIdempotent || op.xIdempotencyKey

/-- `method === 'get' && (pathKey.endsWith('s') ||
pathKey.includes('list') || pathKey.includes('search'))`. -/
def isListOperation (pathKey method : String) : Bool :=
  method == "get" &&
    (jsEndsWith pathKey "s" || strContains pathKey "list" || strContains pathKey "search")

def auHasPagination (op : OperationObject) : Bool :=
  (op.parameters.getD []).any fun p => PAGINATION_PARAMS.contains (strToLower p.name)

/-- The `>= 400` responses of an operation
(`Object.entries(operation.responses).filter(([code]) => parseInt(code) >= 400)`). -/
def errorResponses (op : OperationObject) : List (String × ResponseObject) :=
  (op.responses.getD []).filter fun r => codeGE400 r.1

/-- An operation declares at least one error response (equivalently,
`Object.keys(operation.responses).some(code => parseInt(code) >= 400)`). -/
def hasErrorResponses (op : OperationObject) : Bool := !(errorResponses op).isEmpty

def auOpsWithId (spec : OpenApiSpec) : ℕ := (specOps spec).countP fun t => auHasId t.2.2

def auWellNamedCount (spec : OpenApiSpec) : ℕ :=
  (specOps spec).countP fun t => auWellNamed t.2.2

def auIdempotentCount (spec : OpenApiSpec) : ℕ :=
  (specOps spec).countP fun t => auIdempotent t.2.1 t.2.2

/-- `if (isListOperation && operation.parameters)`: the operation is
only counted as a list operation when its `parameters` field is
present. -/
def auListOperations (spec : OpenApiSpec) : ℕ :=
  (specOps spec).countP fun t => isListOperation t.1 t.2.1 && t.2.2.parameters.isSome

def auOpsWithPagination (spec : OpenApiSpec) : ℕ :=
  (specOps spec).countP fun t =>
    isListOperation t.1 t.2.1 && t.2.2.parameters.isSome && auHasPagination t.2.2

def auOpsWithErrorResponses (spec : OpenApiSpec) : ℕ :=
  (specOps spec).countP fun t => hasErrorResponses t.2.2

def auOperationIdCoverage (spec : OpenApiSpec) (stats : DocStats) : ℤ :=
  pct (auOpsWithId spec) stats.operations

/-- Denominator is `operationsWithId`, not `stats.operations`. -/
def auOperationIdQuality (spec : OpenApiSpec) : ℤ :=
  pct (auWellNamedCount spec) (auOpsWithId spec)

def auIdempotencyScore (spec : OpenApiSpec) (stats : DocStats) : ℤ :=
  pct (auIdempotentCount spec) stats.operations

def auErrorResponseCoverage (spec : OpenApiSpec) (stats : DocStats) : ℤ :=
  pct (auOpsWithErrorResponses spec) stats.operations

/-- `listOperations > 0 ? Math.round(...) : 100` — the one sub-factor
whose empty-population default is 100. -/
def auPaginationCoverage (spec : OpenApiSpec) : ℤ :=
  if 0 < auListOperations spec then
    qRound ((auOpsWithPagination spec : ℚ) / (auListOperations spec : ℚ) * 100)
  else 100

def auScore (spec : OpenApiSpec) (stats : DocStats) : ℤ :=
  qRound ((auOperationIdCoverage spec stats : ℚ) * 0.30 +
    (auOperationIdQuality spec : ℚ) * 0.20 +
    (auIdempotencyScore spec stats : ℚ) * 0.20 +
    (auErrorResponseCoverage spec stats : ℚ) * 0.20 +
    (auPaginationCoverage spec : ℚ) * 0.10)

def auSignals (spec : OpenApiSpec) (stats : DocStats) : List Signal :=
  let operationIdCoverage := auOperationIdCoverage spec stats
  let operationIdQuality := auOperationIdQuality spec
  let idempotencyScore := auIdempotencyScore spec stats
  let paginationCoverage := auPaginationCoverage spec
  (if operationIdCoverage = 100 then
    [⟨.positive, "All operations have operationId", none⟩]
   else if operationIdCoverage > 0 then
    [⟨.negative, toString (stats.operations - auOpsWithId spec) ++ " operations missing operationId",
      some (stats.operations - auOpsWithId spec)⟩]
   else [⟨.negative, "No operationIds defined - agents cannot identify operations", none⟩]) ++
  (if operationIdQuality < 50 ∧ auOpsWithId spec > 0 then
    [⟨.negative, "OperationIds lack verb-noun naming (e.g., getUser, createOrder)", none⟩]
   else []) ++
  (if idempotencyScore ≥ 70 then
    [⟨.positive, toString idempotencyScore ++ "% operations are idempotent or safe", none⟩]
   else []) ++
  (if auListOperations spec > 0 then
    (if paginationCoverage ≥ 70 then
      [⟨.positive, toString paginationCoverage ++ "% list operations support pagination", none⟩]
     else [⟨.negative, "Many list operations lack pagination parameters", none⟩])
   else [])

def analyzeAgentUsability (spec : OpenApiSpec) (stats : DocStats) : DimensionScore :=
  { score := auScore spec stats
    grade := scoreToGrade (auScore spec stats)
    label := "Agent Usability"
    signals := auSignals spec stats
    details :=
      [("operationIdCoverage", auOperationIdCoverage spec stats),
       ("operationIdQuality", auOperationIdQuality spec),
       ("idempotencyScore", auIdempotencyScore spec stats),
       ("errorResponseCoverage", auErrorResponseCoverage spec stats),
       ("paginationCoverage", auPaginationCoverage spec)] }

-- ===========================================================================
-- AI Discoverability
-- ===========================================================================

def aidMetadataScore (spec : OpenApiSpec) : ℤ :=
  (if (match spec.info with | some i => optLenGE i.description 50 | none => false) then 20 else 0) +
  (if (match spec.info with | some i => i.contact | none => false) then 15 else 0) +
  (if (match spec.info with | some i => i.license | none => false) then 10 else 0) +
  (if (match spec.externalDocs with | some e => strTruthy e.url | none => false) then 15 else 0) +
  (if 0 < (spec.servers.getD []).length then
    20 + (if (spec.servers.getD []).any (fun sv => strTruthy sv.description) then 20 else 0)
   else 0)

def mediaHasExample (m : MediaTypeObject) : Bool := m.exampleVal || m.examples

def aidOpHasExample (op : OperationObject) : Bool :=
  ((op.requestBody.bind fun b => b.content).getD []).any (fun m => mediaHasExample m.2) ||
    (op.responses.getD []).any fun r => (r.2.content.getD []).any fun m => mediaHasExample m.2

def aidOpsWithExamples (spec : OpenApiSpec) : ℕ :=
  (specOps spec).countP fun t => aidOpHasExample t.2.2

def aidOpsWithTags (spec : OpenApiSpec) : ℕ :=
  (specOps spec).countP fun t => 0 < (t.2.2.tags.getD []).length

def aidSchemasWithExamples (spec : OpenApiSpec) : ℕ :=
  (componentSchemas spec).countP fun s => s.2.exampleVal || s.2.examples

def aidExampleCoverage (spec : OpenApiSpec) (stats : DocStats) : ℤ :=
  pct (aidOpsWithExamples spec) stats.operations

def aidTagCoverage (spec : OpenApiSpec) (stats : DocStats) : ℤ :=
  pct (aidOpsWithTags spec) stats.operations

def aidSchemaExamples (spec : OpenApiSpec) (stats : DocStats) : ℤ :=
  pct (aidSchemasWithExamples spec) stats.schemas

def aidScore (spec : OpenApiSpec) (stats : DocStats) : ℤ :=
  qRound ((aidExampleCoverage spec stats : ℚ) * 0.35 +
    (aidSchemaExamples spec stats : ℚ) * 0.20 +
    (aidTagCoverage spec stats : ℚ) * 0.20 +
    (aidMetadataScore spec : ℚ) * 0.25)

def aidSignals (spec : OpenApiSpec) (stats : DocStats) : List Signal :=
  let exampleCoverage := aidExampleCoverage spec stats
  let tagCoverage := aidTagCoverage spec stats
  let metadataScore := aidMetadataScore spec
  let hasTagDescriptions :=
    match spec.tags with
    | some ts => ts.all fun t => optLenGE t.description 10
    | none => false
  (if hasTagDescriptions && !(spec.tags.getD []).isEmpty then
    [⟨.positive, toString (spec.tags.getD []).length ++ " well-documented tags", none⟩]
   else []) ++
  (if exampleCoverage ≥ 50 then
    [⟨.positive, toString exampleCoverage ++ "% operations have examples", none⟩]
   else
    [⟨.negative, toString (100 - exampleCoverage) ++ "% operations missing examples",
      some (stats.operations - aidOpsWithExamples spec)⟩]) ++
  (if tagCoverage ≥ 80 then
    [⟨.positive, toString tagCoverage ++ "% operations categorized with tags", none⟩]
   else if stats.operations > 0 then
    [⟨.negative, toString (100 - tagCoverage) ++ "% operations missing tags", none⟩]
   else []) ++
  (if metadataScore < 60 then
    [⟨.negative, "Incomplete API metadata (info, servers, contact)", none⟩]
   else [])

def analyzeAIDiscoverability (spec : OpenApiSpec) (stats : DocStats) : DimensionScore :=
  { score := aidScore spec stats
    grade := scoreToGrade (aidScore spec stats)
    label := "AI Discoverability"
    signals := aidSignals spec stats
    details :=
      [("exampleCoverage", aidExampleCoverage spec stats),
       ("schemaExamples", aidSchemaExamples spec stats),
       ("tagCoverage", aidTagCoverage spec stats),
       ("metadataCompleteness", aidMetadataScore spec)] }

-- ===========================================================================
-- Security
-- ===========================================================================

def secSchemeCount (spec : OpenApiSpec) : ℕ := (componentSecuritySchemes spec).length

def secHasGlobalSecurity (spec : OpenApiSpec) : Bool := 0 < (spec.security.getD []).length

def secHasOAuth (spec : OpenApiSpec) : Bool :=
  (componentSecuritySchemes spec).any fun s => s.2.type == "oauth2"

def secHasApiKey (spec : OpenApiSpec) : Bool :=
  (componentSecuritySchemes spec).any fun s => s.2.type == "apiKey"

def secHasBearerToken (spec : OpenApiSpec) : Bool :=
  (componentSecuritySchemes spec).any fun s => s.2.type == "http" && s.2.scheme == some "bearer"

/-- `spec.servers?.every(s => s.url.startsWith('https://') ||
s.url.startsWith('\x7b') || s.url.startsWith('/')) ?? false`: an absent
`servers` field gives `false`, a present-but-empty array gives `true`
(vacuous `every`). -/
def secHasSecureServers (spec : OpenApiSpec) : Bool :=
  match spec.servers with
  | some l => l.all fun sv =>
      jsStartsWith sv.url "https://" || jsStartsWith sv.url "\x7b" || jsStartsWith sv.url "/"
  | none => false

def secOpsWithSecurity (spec : OpenApiSpec) : ℕ :=
  (specOps spec).countP fun t =>
    secHasGlobalSecurity spec || 0 < (t.2.2.security.getD []).length

/-- `schemeCount > 0 ? Math.min(100, schemeCount * 40) : 0`. -/
def secSchemeScore (spec : OpenApiSpec) : ℤ :=
  if 0 < secSchemeCount spec then min 100 (40 * (secSchemeCount spec : ℤ)) else 0

def secCoverageScore (spec : OpenApiSpec) (stats : DocStats) : ℤ :=
  pct (secOpsWithSecurity spec) stats.operations

def secHttpsScore (spec : OpenApiSpec) : ℤ := if secHasSecureServers spec then 100 else 0

def secScore (spec : OpenApiSpec) (stats : DocStats) : ℤ :=
  qRound ((secSchemeScore spec : ℚ) * 0.40 +
    (secCoverageScore spec stats : ℚ) * 0.40 +
    (secHttpsScore spec : ℚ) * 0.20)

def secSignals (spec : OpenApiSpec) (stats : DocStats) : List Signal :=
  let schemeCount := secSchemeCount spec
  let coverageScore := secCoverageScore spec stats
  (if schemeCount > 0 then
    [⟨.positive, toString schemeCount ++ " security scheme" ++ pluralS schemeCount ++ " defined", none⟩]
   else [⟨.negative, "No security schemes defined", none⟩]) ++
  (if secHasGlobalSecurity spec then
    [⟨.positive, "Global security applied", none⟩]
   else if coverageScore < 100 ∧ stats.operations > 0 then
    [⟨.negative, toString (stats.operations - secOpsWithSecurity spec) ++ " operations without security", none⟩]
   else []) ++
  (if secHasOAuth spec then [⟨.positive, "OAuth 2.0 supported", none⟩] else [])

def analyzeSecurity (spec : OpenApiSpec) (stats : DocStats) : DimensionScore :=
  { score := secScore spec stats
    grade := scoreToGrade (secScore spec stats)
    label := "Security"
    signals := secSignals spec stats
    details :=
      [("securitySchemes", secSchemeScore spec),
       ("securityCoverage", secCoverageScore spec stats),
       ("httpsSupport", secHttpsScore spec)] }

-- ===========================================================================
-- Error Recoverability
-- ===========================================================================

/-- `response.content?.['application/json']?.schema`. -/
def erJsonSchema (r : ResponseObject) : Option SchemaObject :=
  ((r.content.getD []).find? fun m => m.1 == "application/json").bind fun m => m.2.schema

def erSchemaHasField (fields : List String) (r : ResponseObject) : Bool :=
  match erJsonSchema r with
  | some sch => sch.properties.any fun k => fields.contains (strToLower k)
  | none => false

/-- `operationsWithErrors` is incremented once per operation that has at
least one error response. -/
def erOpsWithErrors (spec : OpenApiSpec) : ℕ :=
  (specOps spec).countP fun t => hasErrorResponses t.2.2

/-- `operationsWithErrorSchemas` is incremented inside the loop over an
operation's error responses — once per error response carrying a JSON
schema, not once per operation. -/
def erOpsWithErrorSchemas (spec : OpenApiSpec) : ℕ :=
  ((specOps spec).map fun t =>
    (errorResponses t.2.2).countP fun r => (erJsonSchema r.2).isSome).sum

/-- Incremented once per error response whose schema has a recognized
error-code property. -/
def erOpsWithErrorCodes (spec : OpenApiSpec) : ℕ :=
  ((specOps spec).map fun t =>
    (errorResponses t.2.2).countP fun r => erSchemaHasField errorCodeFields r.2).sum

/-- Incremented once per error response whose schema has a recognized
retry property. -/
def erOpsWithRetryInfo (spec : OpenApiSpec) : ℕ :=
  ((specOps spec).map fun t =>
    (errorResponses t.2.2).countP fun r => erSchemaHasField retryFields r.2).sum

def erErrorCoverage (spec : OpenApiSpec) (stats : DocStats) : ℤ :=
  pct (erOpsWithErrors spec) stats.operations

def erStructuredErrors (spec : OpenApiSpec) : ℤ :=
  pct (erOpsWithErrorSchemas spec) (erOpsWithErrors spec)

def erErrorCodeSupport (spec : OpenApiSpec) : ℤ :=
  pct (erOpsWithErrorCodes spec) (erOpsWithErrors spec)

def erRetrySupport (spec : OpenApiSpec) : ℤ :=
  pct (erOpsWithRetryInfo spec) (erOpsWithErrors spec)

def erScore (spec : OpenApiSpec) (stats : DocStats) : ℤ :=
  qRound ((erErrorCoverage spec stats : ℚ) * 0.35 +
    (erStructuredErrors spec : ℚ) * 0.30 +
    (erErrorCodeSupport spec : ℚ) * 0.20 +
    (erRetrySupport spec : ℚ) * 0.15)

def erSignals (spec : OpenApiSpec) (stats : DocStats) : List Signal :=
  let errorCoverage := erErrorCoverage spec stats
  let structuredErrors := erStructuredErrors spec
  let retrySupport := erRetrySupport spec
  (if errorCoverage ≥ 80 then
    [⟨.positive, toString errorCoverage ++ "% operations define error responses", none⟩]
   else
    [⟨.negative, toString (100 - errorCoverage) ++ "% operations missing error responses", none⟩]) ++
  (if structuredErrors ≥ 50 then
    [⟨.positive, "Error responses have structured schemas", none⟩]
   else if erOpsWithErrors spec > 0 then
    [⟨.negative, "Error responses lack structured schemas", none⟩]
   else []) ++
  (if retrySupport > 0 then
    [⟨.positive, "Some errors include retry guidance", none⟩]
   else if erOpsWithErrors spec > 0 then
    [⟨.negative, "No retry guidance in error responses", none⟩]
   else [])

def analyzeErrorRecoverability (spec : OpenApiSpec) (stats : DocStats) : DimensionScore :=
  { score := erScore spec stats
    grade := scoreToGrade (erScore spec stats)
    label := "Error Recoverability"
    signals := erSignals spec stats
    details :=
      [("errorCoverage", erErrorCoverage spec stats),
       ("structuredErrors", erStructuredErrors spec),
       ("errorCodeSupport", erErrorCodeSupport spec),
       ("retrySupport", erRetrySupport spec)] }

-- ===========================================================================
-- Recommendations
-- ===========================================================================

def priorityRank : Priority → ℕ
  | .critical => 0
  | .high => 1
  | .medium => 2
  | .low => 3

def recLE (a b : Recommendation) : Prop :=
  priorityRank a.priority ≤ priorityRank b.priority

instance : DecidableRel recLE := fun a b =>
  inferInstanceAs (Decidable (priorityRank a.priority ≤ priorityRank b.priority))

def fcRecommendation (p : Priority) : Recommendation :=
  ⟨p, "Foundational Compliance", "Fix Structural Validity Issues",
   "Resolve validation errors and broken references to ensure agents can parse and understand your API.",
   "Agents cannot interact with invalid specifications. This is a blocking issue.", true⟩

def srRecommendation : Recommendation :=
  ⟨.high, "Semantic Richness", "Enrich Descriptions for AI Understanding",
   "Add natural language descriptions to operations, parameters, and schemas. Use action verbs and business context.",
   "AI agents use descriptions to understand when and how to use each endpoint. Poor descriptions lead to incorrect API calls.", true⟩

def auRecommendation (p : Priority) : Recommendation :=
  ⟨p, "Agent Usability", "Add OperationIds and Improve Naming",
   "Every operation needs a unique operationId using verb-noun format (e.g., getUsers, createOrder).",
   "Agents convert operationIds to function names. Missing or poor IDs break agent tool calling.", true⟩

def aidRecommendation : Recommendation :=
  ⟨.medium, "AI Discoverability", "Add Examples and Tags",
   "Include request/response examples for all operations and organize endpoints with tags.",
   "Agents learn from examples faster than schemas. Tags help agents discover related functionality.", true⟩

def secRecommendation (p : Priority) : Recommendation :=
  ⟨p, "Security", "Document Authentication Methods",
   "Define security schemes and apply them consistently. Agents need to know how to authenticate.",
   "Without documented security, agents cannot make authenticated requests.", true⟩

def erRecommendation : Recommendation :=
  ⟨.medium, "Error Recoverability", "Structure Error Responses",
   "Define error responses with structured schemas including error codes and retry guidance.",
   "Structured errors enable agents to understand failures and retry intelligently.", true⟩

def lookupDetail (l : List (String × ℤ)) (k : String) : Option ℤ :=
  (l.find? fun p => p.1 == k).map fun p => p.2

/-- JS `x < c` where `x` may be `undefined` (`undefined < c` is
false). -/
def jsLtOpt (o : Option ℤ) (c : ℤ) : Bool :=
  match o with
  | some v => decide (v < c)
  | none => false

/-- The recommendation list in push order, before sorting. -/
def buildRecommendations (d : Dimensions) : List Recommendation :=
  (if d.foundationalCompliance.score < 80 then
    [fcRecommendation (if d.foundationalCompliance.score < 50 then .critical else .high)]
   else []) ++
  (if d.semanticRichness.score < 70 then [srRecommendation] else []) ++
  (if d.agentUsability.score < 70 then
    [auRecommendation
      (if jsLtOpt (lookupDetail d.agentUsability.details "operationIdCoverage") 50 then .high
       else .medium)]
   else []) ++
  (if d.aiDiscoverability.score < 60 then [aidRecommendation] else []) ++
  (if d.security.score < 80 then
    [secRecommendation (if d.security.score < 40 then .high else .medium)]
   else []) ++
  (if d.errorRecoverability.score < 60 then [erRecommendation] else [])

/-- `recommendations.sort((a, b) => priorityOrder[a.priority] -
priorityOrder[b.priority])` — JS `Array.prototype.sort` is stable, so it
coincides with insertion sort over the total preorder `recLE`. -/
def generateRecommendations (d : Dimensions) : List Recommendation :=
  List.insertionSort recLE (buildRecommendations d)

-- ===========================================================================
-- Engine
-- ===========================================================================

def parseFailureMessage : String :=
  "Failed to parse OpenAPI specification. Ensure the file is valid YAML or JSON."

def createErrorScore (message : String) : AgentReadinessScore :=
  let emptyDim : String → DimensionScore := fun label =>
    ⟨0, .F, label, [⟨.negative, message, none⟩], []⟩
  { overallScore := 0
    grade := .F
    readinessLevel := "Not Ready"
    dimensions :=
      ⟨emptyDim "Foundational Compliance", emptyDim "Semantic Richness",
       emptyDim "Agent Usability", emptyDim "AI Discoverability",
       emptyDim "Security", emptyDim "Error Recoverability"⟩
    stats := ⟨0, 0, 0, 0, 0⟩
    recommendations :=
      [⟨.critical, "foundationalCompliance", "Fix Specification Parsing", message,
        "AI agents cannot interact with an unparseable specification.", true⟩] }

/-- The main path of `calculateAgentReadinessScore` once the document
parsed to an object. -/
noncomputable def scoreParsedSpec (validationResults : List ValidationResult)
    (spec : OpenApiSpec) : AgentReadinessScore :=
  let stats := gatherStats spec
  let foundationalCompliance := analyzeFoundationalCompliance validationResults spec stats
  let semanticRichness := analyzeSemanticRichness spec stats
  let agentUsability := analyzeAgentUsability spec stats
  let aiDiscoverability := analyzeAIDiscoverability spec stats
  let security := analyzeSecurity spec stats
  let errorRecoverability := analyzeErrorRecoverability spec stats
  let overallScore := qRound
    ((foundationalCompliance.score : ℚ) * WEIGHTS.foundationalCompliance +
      (semanticRichness.score : ℚ) * WEIGHTS.semanticRichness +
      (agentUsability.score : ℚ) * WEIGHTS.agentUsability +
      (aiDiscoverability.score : ℚ) * WEIGHTS.aiDiscoverability +
      (security.score : ℚ) * WEIGHTS.security +
      (errorRecoverability.score : ℚ) * WEIGHTS.errorRecoverability)
  let dims : Dimensions :=
    ⟨foundationalCompliance, semanticRichness, agentUsability, aiDiscoverability,
     security, errorRecoverability⟩
  { overallScore := overallScore
    grade := scoreToGrade overallScore
    readinessLevel := scoreToReadinessLevel overallScore
    dimensions := dims
    stats := stats
    recommendations := generateRecommendations dims }

/-- The outcome of `yaml.load` plus the `typeof spec !== 'object' ||
spec === null` guard: the text either fails to parse, parses to a
non-object (or null) value, or parses to an object tree. -/
inductive ParseOutcome where
  | parseError
  | parsedNonObject
  | parsedObject (spec : OpenApiSpec)

noncomputable def calculateAgentReadinessScore (validationResults : List ValidationResult)
    (input : ParseOutcome) : AgentReadinessScore :=
  match input with
  | .parseError => createErrorScore parseFailureMessage
  | .parsedNonObject => createErrorScore parseFailureMessage
  | .parsedObject spec => scoreParsedSpec validationResults spec

-- ===========================================================================
-- General lemmas about the rounding helpers
-- ===========================================================================

theorem qRound_eval {q : ℚ} {z : ℤ} (h1 : (z : ℚ) ≤ q + 1/2) (h2 : q + 1/2 < z + 1) :
    qRound q = z := by
  unfold qRound
  exact Int.floor_eq_iff.mpr ⟨h1, h2⟩

theorem jsRoundR_eval {x : ℝ} {z : ℤ} (h1 : (z : ℝ) ≤ x + 1/2) (h2 : x + 1/2 < z + 1) :
    jsRoundR x = z := by
  unfold jsRoundR
  exact Int.floor_eq_iff.mpr ⟨h1, h2⟩

theorem qRound_mono {p q : ℚ} (h : p ≤ q) : qRound p ≤ qRound q :=
  Int.floor_le_floor (by linarith)

theorem jsRoundR_mono {x y : ℝ} (h : x ≤ y) : jsRoundR x ≤ jsRoundR y :=
  Int.floor_le_floor (by linarith)

theorem qRound_nonneg {q : ℚ} (h : 0 ≤ q) : 0 ≤ qRound q := by
  unfold qRound
  exact Int.le_floor.mpr (by push_cast; linarith)

/-- Closed form of `pct` over natural division, for kernel evaluation at
concrete inputs. -/
theorem pct_pos_eval (a n : ℕ) (h : 0 < n) :
    pct a n = (((200 * a + n) / (2 * n) : ℕ) : ℤ) := by
  unfold pct qRound
  rw [if_pos h]
  have hn : (n : ℚ) ≠ 0 := Nat.cast_ne_zero.mpr h.ne'
  have hq : (a : ℚ) / n * 100 + 1/2 = (((200 * a + n : ℕ) : ℤ) : ℚ) / ((2 * n : ℕ) : ℚ) := by
    push_cast
    field_simp
    ring
  rw [hq, Rat.floor_intCast_div_natCast]
  exact (Int.natCast_div _ _).symm

theorem pct_mono_succ {a n : ℕ} (h : a ≤ n) : pct a n ≤ pct (a + 1) (n + 1) := by
  unfold pct
  rcases Nat.eq_zero_or_pos n with hn | hn
  · subst hn
    rw [if_neg (lt_irrefl 0), if_pos Nat.zero_lt_one]
    exact qRound_nonneg (by positivity)
  · rw [if_pos hn, if_pos (Nat.succ_pos n)]
    apply qRound_mono
    have hn0 : (0 : ℚ) < n := by exact_mod_cast hn
    have hn1 : (0 : ℚ) < (n : ℚ) + 1 := by linarith
    have key : (a : ℚ) / n ≤ ((a : ℚ) + 1) / ((n : ℚ) + 1) := by
      rw [div_le_div_iff₀ hn0 hn1]
      have ha : (a : ℚ) ≤ n := by exact_mod_cast h
      nlinarith
    calc (a : ℚ) / n * 100 ≤ ((a : ℚ) + 1) / ((n : ℚ) + 1) * 100 := by linarith
      _ = ((a : ℚ) + 1) / (((n : ℕ) + 1 : ℕ) : ℚ) * 100 := by push_cast; ring_nf
      _ = (((a : ℕ) + 1 : ℕ) : ℚ) / (((n : ℕ) + 1 : ℕ) : ℚ) * 100 := by push_cast; ring_nf

theorem pct_nonneg (a n : ℕ) : 0 ≤ pct a n := by
  unfold pct
  split
  · exact qRound_nonneg (by positivity)
  · exact le_refl 0

-- ===========================================================================
-- Projection lemmas for the assembled result
-- ===========================================================================

theorem scoreParsedSpec_overall (results : List ValidationResult) (spec : OpenApiSpec) :
    (scoreParsedSpec results spec).overallScore =
      qRound ((fcScore results : ℚ) * 0.25 +
        (srScore spec (gatherStats spec) : ℚ) * 0.20 +
        (auScore spec (gatherStats spec) : ℚ) * 0.20 +
        (aidScore spec (gatherStats spec) : ℚ) * 0.15 +
        (secScore spec (gatherStats spec) : ℚ) * 0.10 +
        (erScore spec (gatherStats spec) : ℚ) * 0.10) := rfl

-- ===========================================================================
-- Claim C1 — range invariant.  The Error Recoverability analyzer counts
-- `operationsWithErrorSchemas`, `operationsWithErrorCodes` and
-- `operationsWithRetryInfo` once per error *response* while dividing by
-- `operationsWithErrors`, counted once per *operation*: an operation
-- with two schema-carrying error responses pushes the ratios to 200 and
-- the dimension score above 100.
-- ===========================================================================

def c1Schema : SchemaObject := { properties := ["code", "retry_after"] }

def c1Response : ResponseObject :=
  { content := some [("application/json", { schema := some c1Schema })] }

/-- One operation with two error responses (400 and 401), both carrying
an `application/json` schema with `code` and `retry_after` properties. -/
def c1Operation : OperationObject :=
  { responses := some [("400", c1Response), ("401", c1Response)] }

def c1Doc : OpenApiSpec := { paths := some [("/a", { get := some c1Operation })] }

/-- C1: the claim (and spec §8 range invariant) requires every
`DimensionScore.score` and every recorded sub-factor to lie in
`[0,100]`; on `c1Doc` the code produces Error Recoverability sub-factors
`structuredErrors = errorCodeSupport = retrySupport = 200` and a
dimension score of `165`, because the three numerators are incremented
once per error response over a once-per-operation denominator. -/
theorem claim1_score_exceeds_range :
    (analyzeErrorRecoverability c1Doc (gatherStats c1Doc)).score = 165 ∧
    erStructuredErrors c1Doc = 200 ∧
    erErrorCodeSupport c1Doc = 200 ∧
    erRetrySupport c1Doc = 200 ∧
    lookupDetail (analyzeErrorRecoverability c1Doc (gatherStats c1Doc)).details
      "structuredErrors" = some 200 := by
  have h1 : erOpsWithErrors c1Doc = 1 := by decide
  have h2 : erOpsWithErrorSchemas c1Doc = 2 := by decide
  have h3 : erOpsWithErrorCodes c1Doc = 2 := by decide
  have h4 : erOpsWithRetryInfo c1Doc = 2 := by decide
  have hops : (gatherStats c1Doc).operations = 1 := by decide
  have hcov : erErrorCoverage c1Doc (gatherStats c1Doc) = 100 := by
    rw [erErrorCoverage, h1, hops, pct_pos_eval _ _ Nat.one_pos]; norm_num
  have hst : erStructuredErrors c1Doc = 200 := by
    rw [erStructuredErrors, h2, h1, pct_pos_eval _ _ Nat.one_pos]; norm_num
  have hcode : erErrorCodeSupport c1Doc = 200 := by
    rw [erErrorCodeSupport, h3, h1, pct_pos_eval _ _ Nat.one_pos]; norm_num
  have hretry : erRetrySupport c1Doc = 200 := by
    rw [erRetrySupport, h4, h1, pct_pos_eval _ _ Nat.one_pos]; norm_num
  have hscore : erScore c1Doc (gatherStats c1Doc) = 165 := by
    rw [erScore, hcov, hst, hcode, hretry]
    apply qRound_eval <;> norm_num
  refine ⟨hscore, hst, hcode, hretry, ?_⟩
  show lookupDetail
    [("errorCoverage", erErrorCoverage c1Doc (gatherStats c1Doc)),
     ("structuredErrors", erStructuredErrors c1Doc),
     ("errorCodeSupport", erErrorCodeSupport c1Doc),
     ("retrySupport", erRetrySupport c1Doc)] "structuredErrors" = some 200
  rw [hst]
  rfl

-- ===========================================================================
-- Claim C3 — list-operation classification and the pagination
-- sub-factor.  The code requires `operation.parameters` to be present
-- before counting a GET on a matching path as a list operation, so a
-- bare `GET /users` is not counted and pagination stays at its default
-- 100.
-- ===========================================================================

def c3Operation : OperationObject := { operationId := some "listUsers" }

/-- `GET /users` with no `parameters` field at all. -/
def c3Doc : OpenApiSpec := { paths := some [("/users", { get := some c3Operation })] }

/-- C3 counterexample: the claim says a `GET /users` operation with no
parameters counts as a list operation and lowers the pagination
sub-factor; on a document containing exactly that operation the code
counts zero list operations and reports the default pagination of 100
(under the claim the sub-factor would be `round(0/1*100) = 0`). -/
theorem claim3_counterexample :
    auListOperations c3Doc = 0 ∧ auPaginationCoverage c3Doc = 100 := by
  constructor
  · decide
  · decide

/-- Adds one more path entry carrying a single operation. -/
def addPath (spec : OpenApiSpec) (pk : String) (item : PathItem) : OpenApiSpec :=
  { spec with paths := some ((spec.paths.getD []) ++ [(pk, item)]) }

/-- A path item with `op` installed on method slot `m` only. -/
def pathItemFor (m : String) (op : OperationObject) : PathItem :=
  { get := if m == "get" then some op else none
    put := if m == "put" then some op else none
    post := if m == "post" then some op else none
    delete := if m == "delete" then some op else none
    options := if m == "options" then some op else none
    head := if m == "head" then some op else none
    patch := if m == "patch" then some op else none
    trace := if m == "trace" then some op else none }

theorem methodOps_pathItemFor {m : String} (op : OperationObject)
    (hm : m ∈ httpMethodNames) : methodOps (pathItemFor m op) = [(m, op)] := by
  fin_cases hm <;> rfl

theorem specOps_addPath (spec : OpenApiSpec) (pk : String) (item : PathItem) :
    specOps (addPath spec pk item) =
      specOps spec ++ (methodOps item).map fun x => (pk, x.1, x.2) := by
  simp [specOps, addPath]

theorem specOps_addPath_single {m : String} (spec : OpenApiSpec) (pk : String)
    (op : OperationObject) (hm : m ∈ httpMethodNames) :
    specOps (addPath spec pk (pathItemFor m op)) = specOps spec ++ [(pk, m, op)] := by
  rw [specOps_addPath, methodOps_pathItemFor op hm]
  rfl

/-- C3 amended: a GET operation on a matching path is counted as a list
operation exactly when its `parameters` field is present; adding a
matching GET operation with no `parameters` field leaves both the
list-operation count and the pagination sub-factor unchanged; the
pagination sub-factor is 100 whenever there are zero list operations;
and the concrete `GET /users` document keeps pagination at 100. -/
theorem claim3_pagination_requires_parameters :
    (∀ spec : OpenApiSpec, auListOperations spec = 0 → auPaginationCoverage spec = 100) ∧
    (∀ (spec : OpenApiSpec) (pk : String) (op : OperationObject) (ps : List ParameterObject),
      op.parameters = some ps → jsEndsWith pk "s" = true →
      auListOperations (addPath spec pk (pathItemFor "get" op)) = auListOperations spec + 1) ∧
    (∀ (spec : OpenApiSpec) (pk : String) (op : OperationObject),
      op.parameters = none →
      auListOperations (addPath spec pk (pathItemFor "get" op)) = auListOperations spec ∧
      auPaginationCoverage (addPath spec pk (pathItemFor "get" op)) =
        auPaginationCoverage spec) := by
  refine ⟨?_, ?_, ?_⟩
  · intro spec h
    rw [auPaginationCoverage, h]
    rfl
  · intro spec pk op ps hps hpk
    rw [auListOperations,
      specOps_addPath_single spec pk op (by simp [httpMethodNames]),
      List.countP_append]
    have : (isListOperation pk "get" && op.parameters.isSome) = true := by
      rw [hps, isListOperation, hpk]
      simp
    simp [this]
    rfl
  · intro spec pk op hps
    have hcount :
        auListOperations (addPath spec pk (pathItemFor "get" op)) = auListOperations spec := by
      rw [auListOperations,
        specOps_addPath_single spec pk op (by simp [httpMethodNames]),
        List.countP_append]
      simp [hps]
      rfl
    have hpag :
        auOpsWithPagination (addPath spec pk (pathItemFor "get" op)) =
          auOpsWithPagination spec := by
      rw [auOpsWithPagination,
        specOps_addPath_single spec pk op (by simp [httpMethodNames]),
        List.countP_append]
      simp [hps]
      rfl
    exact ⟨hcount, by rw [auPaginationCoverage, auPaginationCoverage, hcount, hpag]⟩

/-- Witness for the amended C3 theorem at concrete inputs: adding a
parameterless GET on `/items` to the empty document leaves the
list-operation count and pagination unchanged, the zero-list default is
100, and the same operation with an (empty) `parameters` array present
is counted. -/
theorem claim3_witness :
    auListOperations (addPath {} "/items" (pathItemFor "get" {})) =
      auListOperations ({} : OpenApiSpec) ∧
    auPaginationCoverage (addPath {} "/items" (pathItemFor "get" {})) =
      auPaginationCoverage ({} : OpenApiSpec) ∧
    auPaginationCoverage ({} : OpenApiSpec) = 100 ∧
    auListOperations (addPath {} "/items"
      (pathItemFor "get" { parameters := some [] })) =
      auListOperations ({} : OpenApiSpec) + 1 := by
  refine ⟨?_, ?_, ?_, ?_⟩
  · exact ((claim3_pagination_requires_parameters.2.2) {} "/items" {} rfl).1
  · exact ((claim3_pagination_requires_parameters.2.2) {} "/items" {} rfl).2
  · exact claim3_pagination_requires_parameters.1 {} (by decide)
  · exact (claim3_pagination_requires_parameters.2.1) {} "/items" _ [] rfl (by decide)

-- ===========================================================================
-- Claim C4 — the parse-failure path
-- ===========================================================================

/-- C4: whenever the input fails to parse to a non-null object the engine
returns exactly `createErrorScore` of the fixed parse-failure message:
overall score 0, grade F, readiness level "Not Ready", all six
dimensions at score 0 / grade F with a single negative signal carrying
the message, and exactly one recommendation, of critical priority.  The
analyzers never run on this path (the embedding short-circuits before
touching the document) and the function is total. -/
theorem claim4_parse_failure (results : List ValidationResult) (input : ParseOutcome)
    (h : input = .parseError ∨ input = .parsedNonObject) :
    calculateAgentReadinessScore results input = createErrorScore parseFailureMessage ∧
    (calculateAgentReadinessScore results input).overallScore = 0 ∧
    (calculateAgentReadinessScore results input).grade = .F ∧
    (calculateAgentReadinessScore results input).readinessLevel = "Not Ready" ∧
    (∀ d ∈ [(calculateAgentReadinessScore results input).dimensions.foundationalCompliance,
            (calculateAgentReadinessScore results input).dimensions.semanticRichness,
            (calculateAgentReadinessScore results input).dimensions.agentUsability,
            (calculateAgentReadinessScore results input).dimensions.aiDiscoverability,
            (calculateAgentReadinessScore results input).dimensions.security,
            (calculateAgentReadinessScore results input).dimensions.errorRecoverability],
      d.score = 0 ∧ d.grade = .F ∧ d.signals = [⟨.negative, parseFailureMessage, none⟩]) ∧
    (calculateAgentReadinessScore results input).recommendations =
      [⟨.critical, "foundationalCompliance", "Fix Specification Parsing", parseFailureMessage,
        "AI agents cannot interact with an unparseable specification.", true⟩] := by
  rcases h with rfl | rfl <;>
    exact ⟨rfl, rfl, rfl, rfl, by intro d hd; fin_cases hd <;> exact ⟨rfl, rfl, rfl⟩, rfl⟩

-- ===========================================================================
-- Claim C5 — the empty document
-- ===========================================================================

def emptyDoc : OpenApiSpec := {}

/-- With an empty issue list every Foundational Compliance sub-factor
takes its no-issue value 100, so the dimension scores 100. -/
theorem fcScore_nil : fcScore [] = 100 := by
  have hsv : specificationValidity [] = 100 := by decide
  have hlint : lintResults [] = 100 := by decide
  have hrc : resolutionCompleteness [] = 100 := by decide
  have hsi : structuralIntegrity [] = (100 : ℝ) := by
    show siOf 0 = (100 : ℝ)
    unfold siOf
    rw [if_pos rfl]
  rw [fcScore, hsv, hlint, hrc, hsi]
  apply jsRoundR_eval <;> norm_num

theorem srScore_empty : srScore emptyDoc (gatherStats emptyDoc) = 0 := by
  have h1 : srDescriptionCoverage emptyDoc (gatherStats emptyDoc) = 0 := by decide
  have h2 : srSummaryCoverage emptyDoc (gatherStats emptyDoc) = 0 := by decide
  have h3 : srParameterDescriptions emptyDoc = 0 := by decide
  have h4 : srSchemaDescriptions emptyDoc (gatherStats emptyDoc) = 0 := by decide
  have h5 : srNlQuality emptyDoc (gatherStats emptyDoc) = 0 := by decide
  rw [srScore, h1, h2, h3, h4, h5]
  apply qRound_eval <;> norm_num

/-- Agent Usability on the empty document is 10, not 0: the pagination
sub-factor defaults to 100 with zero list operations and carries weight
0.10. -/
theorem auScore_empty : auScore emptyDoc (gatherStats emptyDoc) = 10 := by
  have h1 : auOperationIdCoverage emptyDoc (gatherStats emptyDoc) = 0 := by decide
  have h2 : auOperationIdQuality emptyDoc = 0 := by decide
  have h3 : auIdempotencyScore emptyDoc (gatherStats emptyDoc) = 0 := by decide
  have h4 : auErrorResponseCoverage emptyDoc (gatherStats emptyDoc) = 0 := by decide
  have h5 : auPaginationCoverage emptyDoc = 100 := by decide
  rw [auScore, h1, h2, h3, h4, h5]
  apply qRound_eval <;> norm_num

theorem aidScore_empty : aidScore emptyDoc (gatherStats emptyDoc) = 0 := by
  have h1 : aidExampleCoverage emptyDoc (gatherStats emptyDoc) = 0 := by decide
  have h2 : aidSchemaExamples emptyDoc (gatherStats emptyDoc) = 0 := by decide
  have h3 : aidTagCoverage emptyDoc (gatherStats emptyDoc) = 0 := by decide
  have h4 : aidMetadataScore emptyDoc = 0 := by decide
  rw [aidScore, h1, h2, h3, h4]
  apply qRound_eval <;> norm_num

theorem secScore_empty : secScore emptyDoc (gatherStats emptyDoc) = 0 := by
  have h1 : secSchemeScore emptyDoc = 0 := by decide
  have h2 : secCoverageScore emptyDoc (gatherStats emptyDoc) = 0 := by decide
  have h3 : secHttpsScore emptyDoc = 0 := by decide
  rw [secScore, h1, h2, h3]
  apply qRound_eval <;> norm_num

theorem erScore_empty : erScore emptyDoc (gatherStats emptyDoc) = 0 := by
  have h1 : erErrorCoverage emptyDoc (gatherStats emptyDoc) = 0 := by decide
  have h2 : erStructuredErrors emptyDoc = 0 := by decide
  have h3 : erErrorCodeSupport emptyDoc = 0 := by decide
  have h4 : erRetrySupport emptyDoc = 0 := by decide
  rw [erScore, h1, h2, h3, h4]
  apply qRound_eval <;> norm_num

/-- C5 counterexample: the claim asserts that the empty document scores
0 on Foundational Compliance and Agent Usability; the code gives neither
dimension 0 there. -/
theorem claim5_counterexample :
    (calculateAgentReadinessScore []
      (.parsedObject emptyDoc)).dimensions.foundationalCompliance.score ≠ 0 ∧
    (calculateAgentReadinessScore []
      (.parsedObject emptyDoc)).dimensions.agentUsability.score ≠ 0 := by
  constructor
  · show fcScore [] ≠ 0
    rw [fcScore_nil]
    decide
  · show auScore emptyDoc (gatherStats emptyDoc) ≠ 0
    rw [auScore_empty]
    decide

/-- C5 amended: on the empty document with an empty issue list,
Semantic Richness, AI Discoverability, Security and Error
Recoverability score 0; Foundational Compliance scores 100 (all four of
its sub-factors take their no-issue default of 100); Agent Usability
scores 10 (only the zero-list-operations pagination default of 100
contributes, at weight 0.10); and the composite overall score is the
fixed number 27. -/
theorem claim5_empty_document_evaluation :
    (calculateAgentReadinessScore []
      (.parsedObject emptyDoc)).dimensions.foundationalCompliance.score = 100 ∧
    (calculateAgentReadinessScore []
      (.parsedObject emptyDoc)).dimensions.semanticRichness.score = 0 ∧
    (calculateAgentReadinessScore []
      (.parsedObject emptyDoc)).dimensions.agentUsability.score = 10 ∧
    (calculateAgentReadinessScore []
      (.parsedObject emptyDoc)).dimensions.aiDiscoverability.score = 0 ∧
    (calculateAgentReadinessScore []
      (.parsedObject emptyDoc)).dimensions.security.score = 0 ∧
    (calculateAgentReadinessScore []
      (.parsedObject emptyDoc)).dimensions.errorRecoverability.score = 0 ∧
    (calculateAgentReadinessScore [] (.parsedObject emptyDoc)).overallScore = 27 := by
  refine ⟨fcScore_nil, srScore_empty, auScore_empty, aidScore_empty, secScore_empty,
    erScore_empty, ?_⟩
  show (scoreParsedSpec [] emptyDoc).overallScore = 27
  rw [scoreParsedSpec_overall, fcScore_nil, srScore_empty, auScore_empty, aidScore_empty,
    secScore_empty, erScore_empty]
  apply qRound_eval <;> norm_num

-- ===========================================================================
-- Claim C6 — weights and the composite formula
-- ===========================================================================

/-- C6: the six weights are exactly 0.25, 0.20, 0.20, 0.15, 0.10, 0.10
in declaration order, they sum to exactly 1, and on every parsed
document the overall score is the JS rounding of the weighted sum of
the six dimension scores. -/
theorem claim6_weights_and_overall :
    WEIGHTS.foundationalCompliance = 0.25 ∧
    WEIGHTS.semanticRichness = 0.20 ∧
    WEIGHTS.agentUsability = 0.20 ∧
    WEIGHTS.aiDiscoverability = 0.15 ∧
    WEIGHTS.security = 0.10 ∧
    WEIGHTS.errorRecoverability = 0.10 ∧
    WEIGHTS.foundationalCompliance + WEIGHTS.semanticRichness + WEIGHTS.agentUsability +
      WEIGHTS.aiDiscoverability + WEIGHTS.security + WEIGHTS.errorRecoverability = 1 ∧
    ∀ (results : List ValidationResult) (spec : OpenApiSpec),
      (calculateAgentReadinessScore results (.parsedObject spec)).overallScore =
        qRound
          (((calculateAgentReadinessScore results
              (.parsedObject spec)).dimensions.foundationalCompliance.score : ℚ) * 0.25 +
           ((calculateAgentReadinessScore results
              (.parsedObject spec)).dimensions.semanticRichness.score : ℚ) * 0.20 +
           ((calculateAgentReadinessScore results
              (.parsedObject spec)).dimensions.agentUsability.score : ℚ) * 0.20 +
           ((calculateAgentReadinessScore results
              (.parsedObject spec)).dimensions.aiDiscoverability.score : ℚ) * 0.15 +
           ((calculateAgentReadinessScore results
              (.parsedObject spec)).dimensions.security.score : ℚ) * 0.10 +
           ((calculateAgentReadinessScore results
              (.parsedObject spec)).dimensions.errorRecoverability.score : ℚ) * 0.10) := by
  refine ⟨rfl, rfl, rfl, rfl, rfl, rfl, by norm_num [WEIGHTS], ?_⟩
  intro results spec
  rfl

-- ===========================================================================
-- Claim C9 — the SUCCESS filter in the Foundational Compliance error
-- count
-- ===========================================================================

/-- C9: an issue of severity "error" whose code contains the substring
"SUCCESS" is excluded from the error count, so appending it changes
neither the specification-validity sub-factor (100 minus 12 per error)
nor the lint sub-factor (100 minus 8 per error and 2 per warning). -/
theorem claim9_success_code_excluded (results : List ValidationResult)
    (i : ValidationResult) (hsev : i.severity = "error")
    (hcode : strContains i.code "SUCCESS" = true) :
    fcErrors (results ++ [i]) = fcErrors results ∧
    specificationValidity (results ++ [i]) = specificationValidity results ∧
    lintResults (results ++ [i]) = lintResults results := by
  have hpred : fcErrorPred i = false := by
    show (i.severity == "error" && !(strContains i.code "SUCCESS")) = false
    rw [hsev, hcode]
    rfl
  have hwpred : fcWarningPred i = false := by
    show (i.severity == "warning") = false
    rw [hsev]
    rfl
  have he : fcErrors (results ++ [i]) = fcErrors results := by
    simp [fcErrors, List.filter_append, hpred]
  have hw : fcWarnings (results ++ [i]) = fcWarnings results := by
    simp [fcWarnings, List.filter_append, hwpred]
  exact ⟨he, by rw [specificationValidity, he, specificationValidity],
    by rw [lintResults, he, hw, lintResults]⟩

def c9Issue : ValidationResult :=
  { source := "oas-zod", code := "VALIDATION_SUCCESS", message := "spec is valid",
    severity := "error" }

theorem claim9_witness :
    c9Issue.severity = "error" ∧
    strContains c9Issue.code "SUCCESS" = true ∧
    specificationValidity ([] ++ [c9Issue]) = specificationValidity [] ∧
    lintResults ([] ++ [c9Issue]) = lintResults [] := by
  refine ⟨rfl, by decide, ?_, ?_⟩
  · exact (claim9_success_code_excluded [] c9Issue rfl (by decide)).2.1
  · exact (claim9_success_code_excluded [] c9Issue rfl (by decide)).2.2

-- ===========================================================================
-- Claim C10 — HTTPS sub-factor: empty vs absent servers
-- ===========================================================================

/-- C10: the HTTPS sub-factor distinguishes a present-but-empty
`servers` array (vacuous `every`, sub-factor 100) from an absent
`servers` field (`?? false`, sub-factor 0). -/
theorem claim10_https_servers_distinction (spec : OpenApiSpec) (stats : DocStats) :
    (spec.servers = some [] →
      lookupDetail (analyzeSecurity spec stats).details "httpsSupport" = some 100) ∧
    (spec.servers = none →
      lookupDetail (analyzeSecurity spec stats).details "httpsSupport" = some 0) := by
  have hval : lookupDetail (analyzeSecurity spec stats).details "httpsSupport" =
      some (secHttpsScore spec) := rfl
  constructor <;> intro h <;> rw [hval]
  · have : secHasSecureServers spec = true := by
      unfold secHasSecureServers
      rw [h]
      rfl
    rw [secHttpsScore, this]
    rfl
  · have : secHasSecureServers spec = false := by
      unfold secHasSecureServers
      rw [h]
    rw [secHttpsScore, this]
    rfl

def c10DocEmptyServers : OpenApiSpec := { servers := some [] }

theorem claim10_witness :
    lookupDetail (analyzeSecurity c10DocEmptyServers
      (gatherStats c10DocEmptyServers)).details "httpsSupport" = some 100 ∧
    lookupDetail (analyzeSecurity ({} : OpenApiSpec)
      (gatherStats ({} : OpenApiSpec))).details "httpsSupport" = some 0 :=
  ⟨(claim10_https_servers_distinction c10DocEmptyServers _).1 rfl,
   (claim10_https_servers_distinction ({} : OpenApiSpec) _).2 rfl⟩

-- ===========================================================================
-- Claim C7 — appending an error-severity issue never increases the
-- Foundational Compliance score
-- ===========================================================================

theorem svOf_le_100 (e : ℕ) : svOf e ≤ 100 := by
  unfold svOf
  split
  · exact le_refl _
  · exact max_le (by norm_num) (by omega)

theorem svOf_antitone {e f : ℕ} (h : e ≤ f) : svOf f ≤ svOf e := by
  rcases Nat.eq_zero_or_pos e with he | he
  · subst he
    calc svOf f ≤ 100 := svOf_le_100 f
      _ = svOf 0 := by unfold svOf; rw [if_pos rfl]
  · have hf : f ≠ 0 := by omega
    unfold svOf
    rw [if_neg he.ne', if_neg hf]
    exact max_le_max (le_refl 0) (by omega)

theorem lintOf_antitone {e f : ℕ} (w : ℕ) (h : e ≤ f) : lintOf f w ≤ lintOf e w := by
  unfold lintOf
  exact max_le_max (le_refl 0) (by omega)

theorem rcOf_le_100 (c : ℕ) : rcOf c ≤ 100 := by
  unfold rcOf
  split
  · exact le_refl _
  · exact max_le (by norm_num) (by omega)

theorem rcOf_antitone {e f : ℕ} (h : e ≤ f) : rcOf f ≤ rcOf e := by
  rcases Nat.eq_zero_or_pos e with he | he
  · subst he
    calc rcOf f ≤ 100 := rcOf_le_100 f
      _ = rcOf 0 := by unfold rcOf; rw [if_pos rfl]
  · have hf : f ≠ 0 := by omega
    unfold rcOf
    rw [if_neg he.ne', if_neg hf]
    exact max_le_max (le_refl 0) (by omega)

theorem siOf_le_100 (n : ℕ) : siOf n ≤ 100 := by
  unfold siOf
  split
  · exact le_refl _
  · apply max_le (by norm_num)
    have hn0 : (0 : ℝ) ≤ (n : ℝ) := Nat.cast_nonneg n
    have hlog : 0 ≤ Real.logb 10 ((n : ℝ) + 1) :=
      Real.logb_nonneg (by norm_num) (by linarith)
    have hmin : 0 ≤ min 50 (Real.logb 10 ((n : ℝ) + 1) * 25) :=
      le_min (by norm_num) (by nlinarith)
    linarith

theorem siOf_antitone {n m : ℕ} (h : n ≤ m) : siOf m ≤ siOf n := by
  rcases Nat.eq_zero_or_pos n with hn | hn
  · subst hn
    calc siOf m ≤ 100 := siOf_le_100 m
      _ = siOf 0 := by unfold siOf; rw [if_pos rfl]
  · have hm : m ≠ 0 := by omega
    unfold siOf
    rw [if_neg hn.ne', if_neg hm]
    have hlog : Real.logb 10 ((n : ℝ) + 1) ≤ Real.logb 10 ((m : ℝ) + 1) := by
      apply Real.logb_le_logb_of_le (by norm_num)
      · positivity
      · have : (n : ℝ) ≤ (m : ℝ) := by exact_mod_cast h
        linarith
    have hmin : min 50 (Real.logb 10 ((n : ℝ) + 1) * 25) ≤
        min 50 (Real.logb 10 ((m : ℝ) + 1) * 25) :=
      min_le_min (le_refl 50) (by nlinarith)
    exact max_le_max (le_refl 0) (by linarith)

theorem filterCount_append_le (p : ValidationResult → Bool) (l : List ValidationResult)
    (i : ValidationResult) : (l.filter p).length ≤ ((l ++ [i]).filter p).length := by
  rw [List.filter_append, List.length_append]
  omega

/-- C7: appending one more issue of severity "error" — any code, message
and path — never increases the Foundational Compliance dimension score:
every issue count is non-decreasing, the warning count is unchanged, all
four sub-factors are antitone in their counts (the structural-integrity
penalty through the monotonicity of `log10`), and JS rounding is
monotone. -/
theorem claim7_fc_error_monotone (results : List ValidationResult) (i : ValidationResult)
    (spec : OpenApiSpec) (stats : DocStats) (hsev : i.severity = "error") :
    (analyzeFoundationalCompliance (results ++ [i]) spec stats).score ≤
      (analyzeFoundationalCompliance results spec stats).score := by
  show fcScore (results ++ [i]) ≤ fcScore results
  have he : fcErrors results ≤ fcErrors (results ++ [i]) := filterCount_append_le _ _ _
  have hw : fcWarnings (results ++ [i]) = fcWarnings results := by
    have hp : fcWarningPred i = false := by
      show (i.severity == "warning") = false
      rw [hsev]
      rfl
    simp [fcWarnings, List.filter_append, hp]
  have hr : fcRefIssues results ≤ fcRefIssues (results ++ [i]) := filterCount_append_le _ _ _
  have hs : fcSchemaIssues results ≤ fcSchemaIssues (results ++ [i]) :=
    filterCount_append_le _ _ _
  have h1 : specificationValidity (results ++ [i]) ≤ specificationValidity results :=
    svOf_antitone he
  have h2 : lintResults (results ++ [i]) ≤ lintResults results := by
    rw [lintResults, lintResults, hw]
    exact lintOf_antitone _ he
  have h3 : resolutionCompleteness (results ++ [i]) ≤ resolutionCompleteness results :=
    rcOf_antitone hr
  have h4 : structuralIntegrity (results ++ [i]) ≤ structuralIntegrity results :=
    siOf_antitone hs
  unfold fcScore
  apply jsRoundR_mono
  have c1 : ((specificationValidity (results ++ [i]) : ℤ) : ℝ) ≤
      ((specificationValidity results : ℤ) : ℝ) := by exact_mod_cast h1
  have c2 : ((lintResults (results ++ [i]) : ℤ) : ℝ) ≤ ((lintResults results : ℤ) : ℝ) := by
    exact_mod_cast h2
  have c3 : ((resolutionCompleteness (results ++ [i]) : ℤ) : ℝ) ≤
      ((resolutionCompleteness results : ℤ) : ℝ) := by exact_mod_cast h3
  nlinarith [c1, c2, c3, h4]

def c7Issue : ValidationResult :=
  { source := "spectral", code := "oas3-schema", message := "schema is invalid",
    severity := "error" }

theorem claim7_witness :
    c7Issue.severity = "error" ∧
    (analyzeFoundationalCompliance ([] ++ [c7Issue]) emptyDoc (gatherStats emptyDoc)).score ≤
      (analyzeFoundationalCompliance [] emptyDoc (gatherStats emptyDoc)).score :=
  ⟨rfl, claim7_fc_error_monotone [] c7Issue emptyDoc (gatherStats emptyDoc) rfl⟩

-- ===========================================================================
-- Claim C2 — adding a well-formed operation
-- ===========================================================================

theorem countP_specOps_addPath {m : String}
    (p : String × String × OperationObject → Bool) (spec : OpenApiSpec) (pk : String)
    (op : OperationObject) (hm : m ∈ httpMethodNames) :
    (specOps (addPath spec pk (pathItemFor m op))).countP p =
      (specOps spec).countP p + if p (pk, m, op) then 1 else 0 := by
  rw [specOps_addPath_single spec pk op hm, List.countP_append]
  simp [List.countP_cons]

theorem operations_addPath {m : String} (spec : OpenApiSpec) (pk : String)
    (op : OperationObject) (hm : m ∈ httpMethodNames) :
    (gatherStats (addPath spec pk (pathItemFor m op))).operations =
      (gatherStats spec).operations + 1 := by
  show (specOps (addPath spec pk (pathItemFor m op))).length = (specOps spec).length + 1
  rw [specOps_addPath_single spec pk op hm, List.length_append]
  rfl

def c2RespGood : ResponseObject :=
  { content := some [("application/json",
      { schema := some { properties := ["code", "retry_after"] } })] }

def c2OpA : OperationObject :=
  { operationId := some "getA"
    description := some "Retrieves the user data."
    summary := some "List users"
    responses := some [("400", c2RespGood)] }

def c2DocA : OpenApiSpec := { paths := some [("/a", { get := some c2OpA })] }

/-- The added operation of the C2 counterexample: well-formed
`operationId` ("getB"), a 20-character description, one 400 response —
but a POST with no summary, no action verb or business noun in the
description, and no JSON schema on the error response. -/
def c2OpB : OperationObject :=
  { operationId := some "getB"
    description := some "aaaaaaaaaaaaaaaaaaaa"
    responses := some [("400", { content := none })] }

def c2DocB : OpenApiSpec := addPath c2DocA "/b" (pathItemFor "post" c2OpB)

/-- C2 counterexample: `c2DocB` is `c2DocA` plus one operation that has
a well-formed operationId, a description of 20 characters and a 400
response, yet all three of Semantic Richness (65 → 48, summary coverage
and natural-language quality dilute), Agent Usability (100 → 90, the
POST lowers idempotency) and Error Recoverability (100 → 68, the
schema-less error response dilutes the structured-error ratios)
strictly decrease. -/
theorem claim2_counterexample :
    (∃ s, c2OpB.operationId = some s ∧ opIdWellFormed s = true) ∧
    srDescOk c2OpB = true ∧
    hasErrorResponses c2OpB = true ∧
    srScore c2DocB (gatherStats c2DocB) < srScore c2DocA (gatherStats c2DocA) ∧
    auScore c2DocB (gatherStats c2DocB) < auScore c2DocA (gatherStats c2DocA) ∧
    erScore c2DocB (gatherStats c2DocB) < erScore c2DocA (gatherStats c2DocA) := by
  have hopsA : (gatherStats c2DocA).operations = 1 := by decide
  have hopsB : (gatherStats c2DocB).operations = 2 := by decide
  -- Semantic Richness of A: 65
  have srA : srScore c2DocA (gatherStats c2DocA) = 65 := by
    have h1 : srDescriptionCoverage c2DocA (gatherStats c2DocA) = 100 := by
      rw [srDescriptionCoverage, hopsA, show srOpsWithDescription c2DocA = 1 from by decide,
        pct_pos_eval _ _ Nat.one_pos]
      norm_num
    have h2 : srSummaryCoverage c2DocA (gatherStats c2DocA) = 100 := by
      rw [srSummaryCoverage, hopsA, show srOpsWithSummary c2DocA = 1 from by decide,
        pct_pos_eval _ _ Nat.one_pos]
      norm_num
    have h3 : srParameterDescriptions c2DocA = 0 := by decide
    have h4 : srSchemaDescriptions c2DocA (gatherStats c2DocA) = 0 := by decide
    have h5 : srNlQuality c2DocA (gatherStats c2DocA) = 100 := by
      rw [srNlQuality, hopsA, show srNaturalLanguageQuality c2DocA = 2 from by decide,
        if_pos Nat.one_pos]
      apply qRound_eval <;> norm_num
    rw [srScore, h1, h2, h3, h4, h5]
    apply qRound_eval <;> norm_num
  -- Semantic Richness of B: 48
  have srB : srScore c2DocB (gatherStats c2DocB) = 48 := by
    have h1 : srDescriptionCoverage c2DocB (gatherStats c2DocB) = 100 := by
      rw [srDescriptionCoverage, hopsB, show srOpsWithDescription c2DocB = 2 from by decide,
        pct_pos_eval _ _ (by norm_num)]
      norm_num
    have h2 : srSummaryCoverage c2DocB (gatherStats c2DocB) = 50 := by
      rw [srSummaryCoverage, hopsB, show srOpsWithSummary c2DocB = 1 from by decide,
        pct_pos_eval _ _ (by norm_num)]
      norm_num
    have h3 : srParameterDescriptions c2DocB = 0 := by decide
    have h4 : srSchemaDescriptions c2DocB (gatherStats c2DocB) = 0 := by decide
    have h5 : srNlQuality c2DocB (gatherStats c2DocB) = 50 := by
      rw [srNlQuality, hopsB, show srNaturalLanguageQuality c2DocB = 2 from by decide,
        if_pos (by norm_num : 0 < 2)]
      apply qRound_eval <;> norm_num
    rw [srScore, h1, h2, h3, h4, h5]
    apply qRound_eval <;> norm_num
  -- Agent Usability of A: 100
  have auA : auScore c2DocA (gatherStats c2DocA) = 100 := by
    have h1 : auOperationIdCoverage c2DocA (gatherStats c2DocA) = 100 := by
      rw [auOperationIdCoverage, hopsA, show auOpsWithId c2DocA = 1 from by decide,
        pct_pos_eval _ _ Nat.one_pos]
      norm_num
    have h2 : auOperationIdQuality c2DocA = 100 := by
      rw [auOperationIdQuality, show auOpsWithId c2DocA = 1 from by decide,
        show auWellNamedCount c2DocA = 1 from by decide, pct_pos_eval _ _ Nat.one_pos]
      norm_num
    have h3 : auIdempotencyScore c2DocA (gatherStats c2DocA) = 100 := by
      rw [auIdempotencyScore, hopsA, show auIdempotentCount c2DocA = 1 from by decide,
        pct_pos_eval _ _ Nat.one_pos]
      norm_num
    have h4 : auErrorResponseCoverage c2DocA (gatherStats c2DocA) = 100 := by
      rw [auErrorResponseCoverage, hopsA,
        show auOpsWithErrorResponses c2DocA = 1 from by decide, pct_pos_eval _ _ Nat.one_pos]
      norm_num
    have h5 : auPaginationCoverage c2DocA = 100 := by decide
    rw [auScore, h1, h2, h3, h4, h5]
    apply qRound_eval <;> norm_num
  -- Agent Usability of B: 90
  have auB : auScore c2DocB (gatherStats c2DocB) = 90 := by
    have h1 : auOperationIdCoverage c2DocB (gatherStats c2DocB) = 100 := by
      rw [auOperationIdCoverage, hopsB, show auOpsWithId c2DocB = 2 from by decide,
        pct_pos_eval _ _ (by norm_num)]
      norm_num
    have h2 : auOperationIdQuality c2DocB = 100 := by
      rw [auOperationIdQuality, show auOpsWithId c2DocB = 2 from by decide,
        show auWellNamedCount c2DocB = 2 from by decide, pct_pos_eval _ _ (by norm_num)]
      norm_num
    have h3 : auIdempotencyScore c2DocB (gatherStats c2DocB) = 50 := by
      rw [auIdempotencyScore, hopsB, show auIdempotentCount c2DocB = 1 from by decide,
        pct_pos_eval _ _ (by norm_num)]
      norm_num
    have h4 : auErrorResponseCoverage c2DocB (gatherStats c2DocB) = 100 := by
      rw [auErrorResponseCoverage, hopsB,
        show auOpsWithErrorResponses c2DocB = 2 from by decide,
        pct_pos_eval _ _ (by norm_num)]
      norm_num
    have h5 : auPaginationCoverage c2DocB = 100 := by decide
    rw [auScore, h1, h2, h3, h4, h5]
    apply qRound_eval <;> norm_num
  -- Error Recoverability of A: 100
  have erA : erScore c2DocA (gatherStats c2DocA) = 100 := by
    have h1 : erErrorCoverage c2DocA (gatherStats c2DocA) = 100 := by
      rw [erErrorCoverage, hopsA, show erOpsWithErrors c2DocA = 1 from by decide,
        pct_pos_eval _ _ Nat.one_pos]
      norm_num
    have h2 : erStructuredErrors c2DocA = 100 := by
      rw [erStructuredErrors, show erOpsWithErrorSchemas c2DocA = 1 from by decide,
        show erOpsWithErrors c2DocA = 1 from by decide, pct_pos_eval _ _ Nat.one_pos]
      norm_num
    have h3 : erErrorCodeSupport c2DocA = 100 := by
      rw [erErrorCodeSupport, show erOpsWithErrorCodes c2DocA = 1 from by decide,
        show erOpsWithErrors c2DocA = 1 from by decide, pct_pos_eval _ _ Nat.one_pos]
      norm_num
    have h4 : erRetrySupport c2DocA = 100 := by
      rw [erRetrySupport, show erOpsWithRetryInfo c2DocA = 1 from by decide,
        show erOpsWithErrors c2DocA = 1 from by decide, pct_pos_eval _ _ Nat.one_pos]
      norm_num
    rw [erScore, h1, h2, h3, h4]
    apply qRound_eval <;> norm_num
  -- Error Recoverability of B: 68
  have erB : erScore c2DocB (gatherStats c2DocB) = 68 := by
    have h1 : erErrorCoverage c2DocB (gatherStats c2DocB) = 100 := by
      rw [erErrorCoverage, hopsB, show erOpsWithErrors c2DocB = 2 from by decide,
        pct_pos_eval _ _ (by norm_num)]
      norm_num
    have h2 : erStructuredErrors c2DocB = 50 := by
      rw [erStructuredErrors, show erOpsWithErrorSchemas c2DocB = 1 from by decide,
        show erOpsWithErrors c2DocB = 2 from by decide, pct_pos_eval _ _ (by norm_num)]
      norm_num
    have h3 : erErrorCodeSupport c2DocB = 50 := by
      rw [erErrorCodeSupport, show erOpsWithErrorCodes c2DocB = 1 from by decide,
        show erOpsWithErrors c2DocB = 2 from by decide, pct_pos_eval _ _ (by norm_num)]
      norm_num
    have h4 : erRetrySupport c2DocB = 50 := by
      rw [erRetrySupport, show erOpsWithRetryInfo c2DocB = 1 from by decide,
        show erOpsWithErrors c2DocB = 2 from by decide, pct_pos_eval _ _ (by norm_num)]
      norm_num
    rw [erScore, h1, h2, h3, h4]
    apply qRound_eval <;> norm_num
  refine ⟨⟨"getB", rfl, by decide⟩, by decide, by decide, ?_, ?_, ?_⟩
  · rw [srA, srB]; decide
  · rw [auA, auB]; decide
  · rw [erA, erB]; decide

/-- C2 amended: adding one more operation with a well-formed
`operationId`, a description of at least 20 characters and at least one
status `>= 400` response never decreases the five affected
coverage-style sub-factors — Semantic Richness description coverage,
Agent Usability operationId coverage, operationId quality and
error-response coverage, and Error Recoverability error coverage.  (The
three dimension *scores* themselves can decrease, as the counterexample
shows, through sub-factors the added operation is allowed to dilute:
summary coverage, natural-language quality, idempotency and the
structured-error ratios.) -/
theorem claim2_subfactor_monotonicity
    (spec : OpenApiSpec) (pk m : String) (op : OperationObject)
    (hm : m ∈ httpMethodNames)
    (hid : ∃ s, op.operationId = some s ∧ opIdWellFormed s = true)
    (hdesc : srDescOk op = true)
    (herr : hasErrorResponses op = true) :
    srDescriptionCoverage spec (gatherStats spec) ≤
      srDescriptionCoverage (addPath spec pk (pathItemFor m op))
        (gatherStats (addPath spec pk (pathItemFor m op))) ∧
    auOperationIdCoverage spec (gatherStats spec) ≤
      auOperationIdCoverage (addPath spec pk (pathItemFor m op))
        (gatherStats (addPath spec pk (pathItemFor m op))) ∧
    auOperationIdQuality spec ≤
      auOperationIdQuality (addPath spec pk (pathItemFor m op)) ∧
    auErrorResponseCoverage spec (gatherStats spec) ≤
      auErrorResponseCoverage (addPath spec pk (pathItemFor m op))
        (gatherStats (addPath spec pk (pathItemFor m op))) ∧
    erErrorCoverage spec (gatherStats spec) ≤
      erErrorCoverage (addPath spec pk (pathItemFor m op))
        (gatherStats (addPath spec pk (pathItemFor m op))) := by
  obtain ⟨s, hop, hwf⟩ := hid
  have hsne : s ≠ "" := by
    intro hs
    subst hs
    exact absurd hwf (by decide)
  have hhasid : auHasId op = true := by
    show strTruthy op.operationId = true
    rw [hop]
    show (!(s == "")) = true
    rw [beq_eq_false_iff_ne.mpr hsne]
    rfl
  have hwn : auWellNamed op = true := by
    show (auHasId op && opIdWellFormed (op.operationId.getD "")) = true
    rw [hhasid, hop]
    show (true && opIdWellFormed s) = true
    rw [hwf]
    rfl
  have hops : (gatherStats (addPath spec pk (pathItemFor m op))).operations =
      (gatherStats spec).operations + 1 := operations_addPath spec pk op hm
  refine ⟨?_, ?_, ?_, ?_, ?_⟩
  · rw [srDescriptionCoverage, srDescriptionCoverage, hops,
      show srOpsWithDescription (addPath spec pk (pathItemFor m op)) =
        srOpsWithDescription spec + 1 from by
          rw [srOpsWithDescription, srOpsWithDescription,
            countP_specOps_addPath _ spec pk op hm]
          simp [hdesc]]
    exact pct_mono_succ (List.countP_le_length _)
  · rw [auOperationIdCoverage, auOperationIdCoverage, hops,
      show auOpsWithId (addPath spec pk (pathItemFor m op)) = auOpsWithId spec + 1 from by
        rw [auOpsWithId, auOpsWithId, countP_specOps_addPath _ spec pk op hm]
        simp [hhasid]]
    exact pct_mono_succ (List.countP_le_length _)
  · rw [auOperationIdQuality, auOperationIdQuality,
      show auOpsWithId (addPath spec pk (pathItemFor m op)) = auOpsWithId spec + 1 from by
        rw [auOpsWithId, auOpsWithId, countP_specOps_addPath _ spec pk op hm]
        simp [hhasid],
      show auWellNamedCount (addPath spec pk (pathItemFor m op)) =
        auWellNamedCount spec + 1 from by
          rw [auWellNamedCount, auWellNamedCount, countP_specOps_addPath _ spec pk op hm]
          simp [hwn]]
    apply pct_mono_succ
    apply List.countP_mono_left
    intro a _ ha
    have := Bool.and_elim_left (by rw [auWellNamed] at ha; exact ha)
    exact this
  · rw [auErrorResponseCoverage, auErrorResponseCoverage, hops,
      show auOpsWithErrorResponses (addPath spec pk (pathItemFor m op)) =
        auOpsWithErrorResponses spec + 1 from by
          rw [auOpsWithErrorResponses, auOpsWithErrorResponses,
            countP_specOps_addPath _ spec pk op hm]
          simp [herr]]
    exact pct_mono_succ (List.countP_le_length _)
  · rw [erErrorCoverage, erErrorCoverage, hops,
      show erOpsWithErrors (addPath spec pk (pathItemFor m op)) =
        erOpsWithErrors spec + 1 from by
          rw [erOpsWithErrors, erOpsWithErrors, countP_specOps_addPath _ spec pk op hm]
          simp [herr]]
    exact pct_mono_succ (List.countP_le_length _)

theorem claim2_witness :
    "post" ∈ httpMethodNames ∧
    (∃ s, c2OpB.operationId = some s ∧ opIdWellFormed s = true) ∧
    srDescOk c2OpB = true ∧
    hasErrorResponses c2OpB = true ∧
    srDescriptionCoverage c2DocA (gatherStats c2DocA) ≤
      srDescriptionCoverage (addPath c2DocA "/b" (pathItemFor "post" c2OpB))
        (gatherStats (addPath c2DocA "/b" (pathItemFor "post" c2OpB))) ∧
    auOperationIdCoverage c2DocA (gatherStats c2DocA) ≤
      auOperationIdCoverage (addPath c2DocA "/b" (pathItemFor "post" c2OpB))
        (gatherStats (addPath c2DocA "/b" (pathItemFor "post" c2OpB))) := by
  have h := claim2_subfactor_monotonicity c2DocA "/b" "post" c2OpB (by decide)
    ⟨"getB", rfl, by decide⟩ (by decide) (by decide)
  exact ⟨by decide, ⟨"getB", rfl, by decide⟩, by decide, by decide, h.1, h.2.1⟩

-- ===========================================================================
-- Claim C8 — recommendation generation
-- ===========================================================================

/-- C8: the sorted recommendation list is exactly the concatenation of
the priority buckets critical, high, medium, low (the low bucket is
always empty), each bucket listing its dimensions in declaration order
(Foundational Compliance, Semantic Richness, Agent Usability, AI
Discoverability, Security, Error Recoverability): one recommendation
per dimension strictly below its trigger threshold (FC < 80, SR < 70,
AU < 70, AID < 60, Security < 80, ER < 60) and no others, and six
perfect scores produce the empty list. -/
theorem claim8_recommendation_generation (d : Dimensions) :
    (generateRecommendations d =
      (if d.foundationalCompliance.score < 80 then
        (if d.foundationalCompliance.score < 50 then [fcRecommendation .critical] else [])
       else []) ++
      ((if d.foundationalCompliance.score < 80 then
         (if d.foundationalCompliance.score < 50 then [] else [fcRecommendation .high])
        else []) ++
       (if d.semanticRichness.score < 70 then [srRecommendation] else []) ++
       (if d.agentUsability.score < 70 then
         (if jsLtOpt (lookupDetail d.agentUsability.details "operationIdCoverage") 50 then
           [auRecommendation .high] else [])
        else []) ++
       (if d.security.score < 80 then
         (if d.security.score < 40 then [secRecommendation .high] else [])
        else [])) ++
      ((if d.agentUsability.score < 70 then
         (if jsLtOpt (lookupDetail d.agentUsability.details "operationIdCoverage") 50 then
           [] else [auRecommendation .medium])
        else []) ++
       (if d.aiDiscoverability.score < 60 then [aidRecommendation] else []) ++
       (if d.security.score < 80 then
         (if d.security.score < 40 then [] else [secRecommendation .medium])
        else []) ++
       (if d.errorRecoverability.score < 60 then [erRecommendation] else []))) ∧
    (d.foundationalCompliance.score = 100 → d.semanticRichness.score = 100 →
     d.agentUsability.score = 100 → d.aiDiscoverability.score = 100 →
     d.security.score = 100 → d.errorRecoverability.score = 100 →
     generateRecommendations d = []) := by
  have main : generateRecommendations d =
      (if d.foundationalCompliance.score < 80 then
        (if d.foundationalCompliance.score < 50 then [fcRecommendation .critical] else [])
       else []) ++
      ((if d.foundationalCompliance.score < 80 then
         (if d.foundationalCompliance.score < 50 then [] else [fcRecommendation .high])
        else []) ++
       (if d.semanticRichness.score < 70 then [srRecommendation] else []) ++
       (if d.agentUsability.score < 70 then
         (if jsLtOpt (lookupDetail d.agentUsability.details "operationIdCoverage") 50 then
           [auRecommendation .high] else [])
        else []) ++
       (if d.security.score < 80 then
         (if d.security.score < 40 then [secRecommendation .high] else [])
        else [])) ++
      ((if d.agentUsability.score < 70 then
         (if jsLtOpt (lookupDetail d.agentUsability.details "operationIdCoverage") 50 then
           [] else [auRecommendation .medium])
        else []) ++
       (if d.aiDiscoverability.score < 60 then [aidRecommendation] else []) ++
       (if d.security.score < 80 then
         (if d.security.score < 40 then [] else [secRecommendation .medium])
        else []) ++
       (if d.errorRecoverability.score < 60 then [erRecommendation] else [])) := by
    unfold generateRecommendations buildRecommendations
    split_ifs <;> decide
  refine ⟨main, ?_⟩
  intro h1 h2 h3 h4 h5 h6
  rw [main]
  norm_num [h1, h2, h3, h4, h5, h6]

def perfectDim : DimensionScore :=
  { score := 100, grade := .A, label := "", signals := [], details := [] }

theorem claim8_witness :
    generateRecommendations
      ⟨perfectDim, perfectDim, perfectDim, perfectDim, perfectDim, perfectDim⟩ = [] :=
  (claim8_recommendation_generation
      ⟨perfectDim, perfectDim, perfectDim, perfectDim, perfectDim, perfectDim⟩).2
    rfl rfl rfl rfl rfl rfl

theorem claim4_witness :
    calculateAgentReadinessScore [] .parseError = createErrorScore parseFailureMessage ∧
    (calculateAgentReadinessScore [] .parseError).overallScore = 0 ∧
    (calculateAgentReadinessScore [] .parseError).recommendations =
      [⟨.critical, "foundationalCompliance", "Fix Specification Parsing", parseFailureMessage,
        "AI agents cannot interact with an unparseable specification.", true⟩] := by
  obtain ⟨h1, h2, -, -, -, h6⟩ := claim4_parse_failure [] .parseError (Or.inl rfl)
  exact ⟨h1, h2, h6⟩

end AgentReady
